import Mathlib

/-!
Verification of the "Not The End" companion tool (nte_player_v1.py,
nte_tool_v1.py, src/hero_model.py) against its natural-language
specification.

The Python sources are shallowly embedded below.  All UI geometry
(hexagon paths, positions, fonts, scene graphics) is excluded per the
spec's scope; graphical item positions enter only through their *count*,
which bounds how many tiles the grid-placement loops will place.
On the narrator side `random.shuffle` is modelled by quantifying over
an arbitrary permutation of the unshuffled tile-type list; on the
player side the shuffle line itself raises `NameError` (the file never
imports `random`), which the embedding models as an escaping exception.
-/

set_option maxRecDepth 10000

/-- Tile-type constant from both files: `TILE_TYPE_SUCCESS = 1`. -/
def TILE_TYPE_SUCCESS : Nat := 1

/-- Tile-type constant from both files: `TILE_TYPE_COMPLICATION = 2`. -/
def TILE_TYPE_COMPLICATION : Nat := 2

/-- `SUCCESS_COLOR = QColor("#ffffff")`. -/
def SUCCESS_COLOR : String := "#ffffff"

/-- `ACCENT_COLOR = "#d9534f"`, `COMPLICATION_COLOR = QColor(ACCENT_COLOR)`. -/
def COMPLICATION_COLOR : String := "#d9534f"

/-- `TILE_BACK_COLOR = QColor("#3c3c3c")`. -/
def TILE_BACK_COLOR : String := "#3c3c3c"

namespace Tool

/-- `HexTileItem` of nte_tool_v1.py: `tile_type`, `is_revealed`,
`is_active`, and the current brush colour.  Geometry (x, y, size,
polygon) is excluded UI state. -/
structure HexTileItem where
  tile_type : Nat
  is_revealed : Bool
  is_active : Bool
  brush : String
deriving Repr, DecidableEq

/-- `HexTileItem.__init__`: face-down, inactive, back-colour brush. -/
def mkTile (tile_type : Nat) : HexTileItem :=
  { tile_type := tile_type, is_revealed := false, is_active := false,
    brush := TILE_BACK_COLOR }

/-- `HexTileItem.reveal`: early-returns when already revealed, otherwise
sets `is_revealed` and paints the brush by tile type. -/
def HexTileItem.reveal (t : HexTileItem) : HexTileItem :=
  if t.is_revealed then t
  else { t with is_revealed := true,
                brush := if t.tile_type == TILE_TYPE_SUCCESS then SUCCESS_COLOR
                         else COMPLICATION_COLOR }

/-- `HexTileItem.reset`: face-down, inactive, back colour. -/
def HexTileItem.reset (t : HexTileItem) : HexTileItem :=
  { t with is_revealed := false, is_active := false, brush := TILE_BACK_COLOR }

/-- `HexGridDrawView` counters and tile list.  `drawFinished_events`
logs each `drawFinished.emit(successes, complications)` signal. -/
structure HexGridDrawView where
  tiles : List HexTileItem
  draw_limit : Nat
  drawn_count : Nat
  successes_drawn : Nat
  complications_drawn : Nat
  drawFinished_events : List (Nat × Nat)
deriving Repr, DecidableEq

/-- `HexGridDrawView.__init__`: empty tile list, all counters zero. -/
def HexGridDrawView.init : HexGridDrawView :=
  { tiles := [], draw_limit := 0, drawn_count := 0, successes_drawn := 0,
    complications_drawn := 0, drawFinished_events := [] }

/-- The `positions` list of `setup_grid` has 19 entries
(centre + inner ring of 6 + outer ring of 12); only its length matters
for the placement loop's `break`. -/
def positionsLength : Nat := 1 + 6 + 12

/-- The unshuffled `tile_types` list of `HexGridDrawView.setup_grid`:
`[TILE_TYPE_SUCCESS] * successes + [TILE_TYPE_COMPLICATION] * complications`. -/
def tile_types_base (successes complications : Nat) : List Nat :=
  List.replicate successes TILE_TYPE_SUCCESS ++
    List.replicate complications TILE_TYPE_COMPLICATION

/-- `HexGridDrawView.setup_grid` after the shuffle: places one fresh
face-down tile per type, stopping (`break`) once the 19 positions are
exhausted.  `shuffled` stands for `tile_types` after `random.shuffle`. -/
def HexGridDrawView.setup_grid (g : HexGridDrawView) (shuffled : List Nat) :
    HexGridDrawView :=
  { g with tiles := (shuffled.take positionsLength).map mkTile }

/-- `start_interactive_draw(num_to_draw)`: stores the quota, zeroes the
draw counters, and activates every tile. -/
def HexGridDrawView.start_interactive_draw (g : HexGridDrawView)
    (num_to_draw : Nat) : HexGridDrawView :=
  { g with draw_limit := num_to_draw, drawn_count := 0, successes_drawn := 0,
           complications_drawn := 0,
           tiles := g.tiles.map (fun t => { t with is_active := true }) }

/-- `on_tile_revealed(tile_type)`: bumps the counters; once
`drawn_count >= draw_limit`, deactivates every tile and emits
`drawFinished(successes_drawn, complications_drawn)`. -/
def HexGridDrawView.on_tile_revealed (g : HexGridDrawView) (tile_type : Nat) :
    HexGridDrawView :=
  let g1 : HexGridDrawView :=
    { g with drawn_count := g.drawn_count + 1,
             successes_drawn :=
               if tile_type == TILE_TYPE_SUCCESS then g.successes_drawn + 1
               else g.successes_drawn,
             complications_drawn :=
               if tile_type == TILE_TYPE_SUCCESS then g.complications_drawn
               else g.complications_drawn + 1 }
  if g1.draw_limit ≤ g1.drawn_count then
    { g1 with tiles := g1.tiles.map (fun t => { t with is_active := false }),
              drawFinished_events := g1.drawFinished_events ++
                [(g1.successes_drawn, g1.complications_drawn)] }
  else g1

/-- `HexGridDrawView.mousePressEvent`: a click that hits tile `i`
reveals it only when the tile is active and face-down, then runs
`on_tile_revealed`; any other click does nothing. -/
def HexGridDrawView.mousePressEvent (g : HexGridDrawView) (i : Nat) :
    HexGridDrawView :=
  match g.tiles[i]? with
  | some t =>
    if t.is_active && !t.is_revealed then
      HexGridDrawView.on_tile_revealed
        { g with tiles := g.tiles.set i t.reveal } t.tile_type
    else g
  | none => g

/-- `NarratorApp.begin_interactive_draw`: rejects a zero quota and a
quota exceeding the tile count (setting only the `results_display`
text), otherwise starts the interactive draw. -/
def begin_interactive_draw (g : HexGridDrawView) (num_to_draw : Nat) :
    Except String HexGridDrawView :=
  let total_tiles := g.tiles.length
  if num_to_draw == 0 then
    Except.error "Cannot reveal 0 tiles. Please select at least 1."
  else if total_tiles < num_to_draw then
    Except.error s!"Cannot draw {num_to_draw}. Only {total_tiles} tiles in grid."
  else
    Except.ok (g.start_interactive_draw num_to_draw)

/-- Number of revealed tiles in the grid. -/
def HexGridDrawView.revealedCount (g : HexGridDrawView) : Nat :=
  g.tiles.countP (fun t => t.is_revealed)

/-- Number of revealed Success tiles in the grid. -/
def HexGridDrawView.revealedSuccesses (g : HexGridDrawView) : Nat :=
  g.tiles.countP (fun t => t.is_revealed && t.tile_type == TILE_TYPE_SUCCESS)

/-- Number of revealed non-Success tiles (counted as complications by
`on_tile_revealed`'s `else` branch). -/
def HexGridDrawView.revealedOthers (g : HexGridDrawView) : Nat :=
  g.tiles.countP (fun t => t.is_revealed && !(t.tile_type == TILE_TYPE_SUCCESS))

/-- Every tile of the grid is active. -/
def HexGridDrawView.allActive (g : HexGridDrawView) : Prop :=
  ∀ t ∈ g.tiles, t.is_active = true

/-- Every tile of the grid is inactive. -/
def HexGridDrawView.allInactive (g : HexGridDrawView) : Prop :=
  ∀ t ∈ g.tiles, t.is_active = false

/-- Whether the tile at index `j` is revealed (`false` out of range). -/
def HexGridDrawView.tileRevealed (g : HexGridDrawView) (j : Nat) : Bool :=
  ((g.tiles[j]?).map (fun t => t.is_revealed)).getD false

end Tool

namespace Player

/-- `HexTileItem` of nte_player_v1.py: no `is_active` flag (the player
grid is always clickable). -/
structure HexTileItem where
  tile_type : Nat
  is_revealed : Bool
  brush : String
deriving Repr, DecidableEq

/-- `HexTileItem.__init__(size, tile_type)`: face-down, back colour. -/
def mkTile (tile_type : Nat) : HexTileItem :=
  { tile_type := tile_type, is_revealed := false, brush := TILE_BACK_COLOR }

/-- Player-side `HexTileItem.reveal`. -/
def HexTileItem.reveal (t : HexTileItem) : HexTileItem :=
  if t.is_revealed then t
  else { t with is_revealed := true,
                brush := if t.tile_type == TILE_TYPE_SUCCESS then SUCCESS_COLOR
                         else COMPLICATION_COLOR }

/-- `DrawView`: just the tile list (`self.tiles`). -/
structure DrawView where
  tiles : List HexTileItem
deriving Repr, DecidableEq

/-- `DrawView.__init__`: `self.tiles = []`. -/
def DrawView.init : DrawView := { tiles := [] }

/-- The unshuffled `tile_types` list of `DrawView.setup_grid` — note the
argument order `(complications, successes)`:
`[TILE_TYPE_COMPLICATION] * complications + [TILE_TYPE_SUCCESS] * successes`. -/
def tile_types_base (complications successes : Nat) : List Nat :=
  List.replicate complications TILE_TYPE_COMPLICATION ++
    List.replicate successes TILE_TYPE_SUCCESS

/-- The exception raised at `random.shuffle(tile_types)`:
nte_player_v1.py imports `sys`, `json`, `socket`, `threading`, the
PyQt6 modules and `math`, but never `random`, so the name lookup fails
on every call. -/
def nameErrorRandom : String := "NameError: name random is not defined"

/-- `DrawView.setup_grid(complications, successes, tile_size)`: clears
`self.tiles` and builds the local `tile_types` list, then raises
`NameError` at `random.shuffle(tile_types)`.  Control leaves the method
with the tile list empty; the position table and the placement loop
after the shuffle line are never reached, so no tile is ever placed.
The first component is the view state when the exception escapes, the
second the escaping exception. -/
def DrawView.setup_grid (g : DrawView) (complications successes : Nat) :
    DrawView × Except String Unit :=
  let _tile_types := tile_types_base complications successes
  ({ g with tiles := [] }, Except.error nameErrorRandom)

/-- `DrawView.mousePressEvent`: a click on tile `i` reveals it
(clicks that hit no tile do nothing). -/
def DrawView.mousePressEvent (g : DrawView) (i : Nat) : DrawView :=
  match g.tiles[i]? with
  | some t => { g with tiles := g.tiles.set i t.reveal }
  | none => g

/-- `DrawView.get_results`: counts revealed tiles of each type. -/
def DrawView.get_results (g : DrawView) : Nat × Nat :=
  (g.tiles.countP (fun t => t.is_revealed && t.tile_type == TILE_TYPE_SUCCESS),
   g.tiles.countP (fun t => t.is_revealed && t.tile_type == TILE_TYPE_COMPLICATION))

end Player

section C1Lemmas

lemma tool_base_length (s c : Nat) : (Tool.tile_types_base s c).length = s + c := by
  simp [Tool.tile_types_base]

lemma tool_base_count_success (s c : Nat) :
    (Tool.tile_types_base s c).count TILE_TYPE_SUCCESS = s := by
  simp [Tool.tile_types_base, List.count_append, List.count_replicate,
    TILE_TYPE_SUCCESS, TILE_TYPE_COMPLICATION]

lemma tool_base_count_complication (s c : Nat) :
    (Tool.tile_types_base s c).count TILE_TYPE_COMPLICATION = c := by
  simp [Tool.tile_types_base, List.count_append, List.count_replicate,
    TILE_TYPE_SUCCESS, TILE_TYPE_COMPLICATION]

end C1Lemmas

/-- C1 (counterexample): the claim fails on both grids.  Narrator: for
`(s, c) = (20, 0)` the grid places only 19 tiles (the position table has
19 entries and the loop breaks there); the run shown is the one where
`random.shuffle` leaves the list in place, a genuine run.  Player: for
`(s, c) = (1, 0)` — `setup_grid(0, 1, tile_size)` — the call raises
`NameError` at `random.shuffle` (the file never imports `random`) and
leaves the tile list empty instead of producing the claimed 1-tile
pool. -/
theorem C1_counterexample :
    ((Tool.HexGridDrawView.init.setup_grid
        (Tool.tile_types_base 20 0)).tiles.length = 19 ∧
      (19 : Nat) ≠ 20 + 0) ∧
    ((Player.DrawView.init.setup_grid 0 1).2 =
        Except.error Player.nameErrorRandom ∧
      (Player.DrawView.init.setup_grid 0 1).1.tiles.length = 0 ∧
      (0 : Nat) ≠ 1 + 0) := by
  refine ⟨⟨by decide, by decide⟩, rfl, by decide, by decide⟩

section C1Amended

lemma tool_setup_length (order : List Nat) (hlen : order.length ≤ Tool.positionsLength) :
    (Tool.HexGridDrawView.init.setup_grid order).tiles.length = order.length := by
  simp [Tool.HexGridDrawView.setup_grid, List.take_of_length_le hlen]

lemma tool_setup_countP (order : List Nat) (hlen : order.length ≤ Tool.positionsLength)
    (a : Nat) :
    (Tool.HexGridDrawView.init.setup_grid order).tiles.countP
        (fun t => t.tile_type == a) = order.count a := by
  simp [Tool.HexGridDrawView.setup_grid, List.take_of_length_le hlen,
    List.countP_map, Tool.mkTile, List.count, Function.comp_def]

end C1Amended

/-- C1 (amended): narrator side — on every run (any permutation the
shuffle may output), the grid holds exactly `min (s + c) 19` tiles whose
type sequence is the first 19 entries of the shuffled order; whenever
`s + c ≤ 19` that is exactly `s + c` tiles with exactly `s` Success and
`c` Complication tiles.  Player side — `DrawView.setup_grid` never
produces a pool: every call raises `NameError` at `random.shuffle`
(`random` is not imported in nte_player_v1.py) with the tile list left
empty. -/
theorem C1_amended_pool_composition (s c : Nat) (norder : List Nat)
    (hn : norder.Perm (Tool.tile_types_base s c)) :
    (s + c ≤ 19 →
      (Tool.HexGridDrawView.init.setup_grid norder).tiles.length = s + c ∧
      (Tool.HexGridDrawView.init.setup_grid norder).tiles.countP
          (fun t => t.tile_type == TILE_TYPE_SUCCESS) = s ∧
      (Tool.HexGridDrawView.init.setup_grid norder).tiles.countP
          (fun t => t.tile_type == TILE_TYPE_COMPLICATION) = c) ∧
    (Tool.HexGridDrawView.init.setup_grid norder).tiles.length =
      min (s + c) 19 ∧
    (Tool.HexGridDrawView.init.setup_grid norder).tiles.map
      (fun t => t.tile_type) = norder.take 19 ∧
    (∀ (g : Player.DrawView) (complications successes : Nat),
      (g.setup_grid complications successes).2 =
        Except.error Player.nameErrorRandom ∧
      (g.setup_grid complications successes).1.tiles = []) := by
  have hnlen : norder.length = s + c := by
    rw [hn.length_eq, tool_base_length]
  refine ⟨?_, ?_, ?_, ?_⟩
  · intro hcap
    have hnle : norder.length ≤ Tool.positionsLength := by
      rw [hnlen]; exact hcap
    refine ⟨?_, ?_, ?_⟩
    · rw [tool_setup_length norder hnle, hnlen]
    · rw [tool_setup_countP norder hnle, hn.count_eq, tool_base_count_success]
    · rw [tool_setup_countP norder hnle, hn.count_eq,
        tool_base_count_complication]
  · show ((norder.take Tool.positionsLength).map Tool.mkTile).length =
      min (s + c) 19
    rw [List.length_map, List.length_take, hnlen]
    have h19 : Tool.positionsLength = 19 := rfl
    rw [h19, Nat.min_comm]
  · show ((norder.take Tool.positionsLength).map Tool.mkTile).map
      (fun t => t.tile_type) = norder.take 19
    have h19 : Tool.positionsLength = 19 := rfl
    rw [List.map_map, h19]
    have hid : ((fun t : Tool.HexTileItem => t.tile_type) ∘ Tool.mkTile) =
        id := rfl
    rw [hid, List.map_id]
  · intro g complications successes
    exact ⟨rfl, rfl⟩

section C2Lemmas

lemma countP_set_incr {α : Type} (p : α → Bool) :
    ∀ (l : List α) (i : Nat) (t t' : α), l[i]? = some t → p t = false →
      (l.set i t').countP p = l.countP p + (if p t' then 1 else 0) := by
  intro l
  induction l with
  | nil => intro i t t' h _; simp at h
  | cons a as ih =>
    intro i t t' h hpt
    cases i with
    | zero =>
      simp only [List.getElem?_cons_zero, Option.some.injEq] at h
      subst h
      simp [List.countP_cons, hpt]
    | succ j =>
      simp only [List.getElem?_cons_succ] at h
      simp only [List.set_cons_succ, List.countP_cons, ih j t t' h hpt]
      omega

lemma tool_reveal_tile_type (t : Tool.HexTileItem) :
    t.reveal.tile_type = t.tile_type := by
  unfold Tool.HexTileItem.reveal; split <;> rfl

lemma tool_reveal_is_active (t : Tool.HexTileItem) :
    t.reveal.is_active = t.is_active := by
  unfold Tool.HexTileItem.reveal; split <;> rfl

lemma tool_reveal_is_revealed (t : Tool.HexTileItem) (h : t.is_revealed = false) :
    t.reveal.is_revealed = true := by
  unfold Tool.HexTileItem.reveal; rw [h]; rfl

/-- The interactive-draw invariant: counters mirror the revealed tiles,
the quota is never exceeded, tiles are all active while the draw is
running and all inactive once it completes, and `drawFinished` has fired
exactly when the quota was reached. -/
structure DrawInv (n : Nat) (g : Tool.HexGridDrawView) : Prop where
  limit : g.draw_limit = n
  drawn : g.drawn_count = g.revealedCount
  succs : g.successes_drawn = g.revealedSuccesses
  comps : g.complications_drawn = g.revealedOthers
  drawn_le : g.drawn_count ≤ n
  active : g.drawn_count < n → g.allActive
  inactive : g.drawn_count = n → g.allInactive
  events : g.drawFinished_events =
    if g.drawn_count = n then [(g.successes_drawn, g.complications_drawn)] else []

lemma mousePress_allInactive (g : Tool.HexGridDrawView)
    (h : g.allInactive) (i : Nat) : g.mousePressEvent i = g := by
  unfold Tool.HexGridDrawView.mousePressEvent
  cases hg : g.tiles[i]? with
  | none => rfl
  | some t =>
    have ht := h t (List.getElem?_mem hg)
    simp [ht]

lemma fold_allInactive (g : Tool.HexGridDrawView) (h : g.allInactive) :
    ∀ clicks : List Nat,
      clicks.foldl Tool.HexGridDrawView.mousePressEvent g = g := by
  intro clicks
  induction clicks with
  | nil => rfl
  | cons i cs ih =>
    simp only [List.foldl_cons, mousePress_allInactive g h i, ih]

lemma countP_deactivate (l : List Tool.HexTileItem) (p : Tool.HexTileItem → Bool)
    (hp : ∀ u : Tool.HexTileItem, p { u with is_active := false } = p u) :
    (l.map (fun u => { u with is_active := false })).countP p = l.countP p := by
  rw [List.countP_map]
  exact List.countP_congr (fun a _ => by simp [Function.comp, hp a])

lemma drawInv_step (n : Nat) (g : Tool.HexGridDrawView)
    (h : DrawInv n g) (i : Nat) : DrawInv n (g.mousePressEvent i) := by
  unfold Tool.HexGridDrawView.mousePressEvent
  cases hg : g.tiles[i]? with
  | none => exact h
  | some t =>
    dsimp only
    by_cases hcond : (t.is_active && !t.is_revealed) = true
    case neg => rw [if_neg hcond]; exact h
    case pos =>
      rw [if_pos hcond]
      rw [Bool.and_eq_true, Bool.not_eq_true'] at hcond
      obtain ⟨hact, hrev⟩ := hcond
      have hmem : t ∈ g.tiles := List.getElem?_mem hg
      have hlt : g.drawn_count < n := by
        rcases Nat.lt_or_ge g.drawn_count n with h1 | h2
        · exact h1
        · have heq : g.drawn_count = n := Nat.le_antisymm h.drawn_le h2
          have := h.inactive heq t hmem
          rw [hact] at this
          exact absurd this (by simp)
      have hevents : g.drawFinished_events = [] := by
        rw [h.events, if_neg (Nat.ne_of_lt hlt)]
      have hrc : (g.tiles.set i t.reveal).countP (fun u => u.is_revealed) =
          g.tiles.countP (fun u => u.is_revealed) + 1 := by
        rw [countP_set_incr _ g.tiles i t t.reveal hg hrev,
          if_pos (tool_reveal_is_revealed t hrev)]
      have hrs : (g.tiles.set i t.reveal).countP
            (fun u => u.is_revealed && u.tile_type == TILE_TYPE_SUCCESS) =
          g.tiles.countP (fun u => u.is_revealed && u.tile_type == TILE_TYPE_SUCCESS) +
            (if t.tile_type == TILE_TYPE_SUCCESS then 1 else 0) := by
        rw [countP_set_incr _ g.tiles i t t.reveal hg (by simp [hrev])]
        congr 1
        simp only [tool_reveal_is_revealed t hrev, tool_reveal_tile_type,
          Bool.true_and]
      have hro : (g.tiles.set i t.reveal).countP
            (fun u => u.is_revealed && !(u.tile_type == TILE_TYPE_SUCCESS)) =
          g.tiles.countP (fun u => u.is_revealed && !(u.tile_type == TILE_TYPE_SUCCESS)) +
            (if t.tile_type == TILE_TYPE_SUCCESS then 0 else 1) := by
        rw [countP_set_incr _ g.tiles i t t.reveal hg (by simp [hrev])]
        congr 1
        simp only [tool_reveal_is_revealed t hrev, tool_reveal_tile_type,
          Bool.true_and]
        cases hty : (t.tile_type == TILE_TYPE_SUCCESS) <;> simp
      unfold Tool.HexGridDrawView.on_tile_revealed
      simp only []
      rw [h.limit]
      have hdrawn : g.drawn_count = g.tiles.countP (fun u => u.is_revealed) := h.drawn
      have hsuccs : g.successes_drawn =
          g.tiles.countP (fun u => u.is_revealed && u.tile_type == TILE_TYPE_SUCCESS) := h.succs
      have hcomps : g.complications_drawn =
          g.tiles.countP (fun u => u.is_revealed && !(u.tile_type == TILE_TYPE_SUCCESS)) := h.comps
      rcases Nat.lt_or_ge (g.drawn_count + 1) n with hlt2 | hge
      · rw [if_neg (by omega)]
        refine ⟨rfl, ?_, ?_, ?_, by show g.drawn_count + 1 ≤ n; omega, ?_, ?_, ?_⟩
        · show g.drawn_count + 1 =
            (g.tiles.set i t.reveal).countP (fun u => u.is_revealed)
          rw [hrc, ← hdrawn]
        · show (if t.tile_type == TILE_TYPE_SUCCESS then g.successes_drawn + 1
              else g.successes_drawn) =
            (g.tiles.set i t.reveal).countP
              (fun u => u.is_revealed && u.tile_type == TILE_TYPE_SUCCESS)
          rw [hrs, ← hsuccs]
          cases hty : (t.tile_type == TILE_TYPE_SUCCESS) <;> simp
        · show (if t.tile_type == TILE_TYPE_SUCCESS then g.complications_drawn
              else g.complications_drawn + 1) =
            (g.tiles.set i t.reveal).countP
              (fun u => u.is_revealed && !(u.tile_type == TILE_TYPE_SUCCESS))
          rw [hro, ← hcomps]
          cases hty : (t.tile_type == TILE_TYPE_SUCCESS) <;> simp
        · intro _
          intro u hu
          rcases List.mem_or_eq_of_mem_set hu with hu' | hu'
          · exact h.active hlt u hu'
          · rw [hu', tool_reveal_is_active]; exact hact
        · intro hcontra
          exact absurd (show g.drawn_count + 1 = n from hcontra) (by omega)
        · show g.drawFinished_events =
            if g.drawn_count + 1 = n then _ else []
          rw [hevents, if_neg (by omega)]
      · have heqn : g.drawn_count + 1 = n := by omega
        rw [if_pos hge]
        refine ⟨rfl, ?_, ?_, ?_, by show g.drawn_count + 1 ≤ n; omega, ?_, ?_, ?_⟩
        · dsimp only [Tool.HexGridDrawView.revealedCount]
          rw [countP_deactivate (g.tiles.set i t.reveal)
            (fun u => u.is_revealed) (fun u => rfl), hrc, ← hdrawn]
        · dsimp only [Tool.HexGridDrawView.revealedSuccesses]
          rw [countP_deactivate (g.tiles.set i t.reveal)
            (fun u => u.is_revealed && u.tile_type == TILE_TYPE_SUCCESS)
            (fun u => rfl), hrs, ← hsuccs]
          cases hty : (t.tile_type == TILE_TYPE_SUCCESS) <;> simp
        · dsimp only [Tool.HexGridDrawView.revealedOthers]
          rw [countP_deactivate (g.tiles.set i t.reveal)
            (fun u => u.is_revealed && !(u.tile_type == TILE_TYPE_SUCCESS))
            (fun u => rfl), hro, ← hcomps]
          cases hty : (t.tile_type == TILE_TYPE_SUCCESS) <;> simp
        · intro hcontra
          exact absurd (show g.drawn_count + 1 < n from hcontra) (by omega)
        · intro _
          intro u hu
          rw [List.mem_map] at hu
          obtain ⟨v, _, hv⟩ := hu
          rw [← hv]
        · dsimp only
          rw [hevents, if_pos heqn]
          rfl

lemma drawInv_fold (n : Nat) (clicks : List Nat) :
    ∀ g : Tool.HexGridDrawView, DrawInv n g →
      DrawInv n (clicks.foldl Tool.HexGridDrawView.mousePressEvent g) := by
  induction clicks with
  | nil => intro g h; exact h
  | cons i cs ih =>
    intro g h
    rw [List.foldl_cons]
    exact ih _ (drawInv_step n g h i)

lemma mousePress_length (g : Tool.HexGridDrawView) (i : Nat) :
    (g.mousePressEvent i).tiles.length = g.tiles.length := by
  unfold Tool.HexGridDrawView.mousePressEvent
  cases hg : g.tiles[i]? with
  | none => rfl
  | some t =>
    dsimp only
    by_cases hcond : (t.is_active && !t.is_revealed) = true
    · rw [if_pos hcond]
      unfold Tool.HexGridDrawView.on_tile_revealed
      dsimp only
      split <;> simp
    · rw [if_neg hcond]

lemma fold_length (clicks : List Nat) :
    ∀ g : Tool.HexGridDrawView,
      (clicks.foldl Tool.HexGridDrawView.mousePressEvent g).tiles.length =
        g.tiles.length := by
  induction clicks with
  | nil => intro g; rfl
  | cons i cs ih =>
    intro g
    rw [List.foldl_cons, ih, mousePress_length]

lemma on_tile_revealed_drawn (g : Tool.HexGridDrawView) (ty : Nat) :
    (g.on_tile_revealed ty).drawn_count = g.drawn_count + 1 := by
  unfold Tool.HexGridDrawView.on_tile_revealed
  dsimp only
  split <;> rfl

/-- While the quota is not yet reached, the revealed tiles are exactly
the in-range indices clicked so far. -/
def RevealedMatches (g : Tool.HexGridDrawView) (ps : List Nat) : Prop :=
  ∀ j, j < g.tiles.length → (g.tileRevealed j = true ↔ j ∈ ps)

lemma revealedMatches_step (n : Nat) (g : Tool.HexGridDrawView) (h : DrawInv n g)
    (ps : List Nat) (hrm : g.drawn_count < n → RevealedMatches g ps) (i : Nat)
    (hlt2 : (g.mousePressEvent i).drawn_count < n) :
    RevealedMatches (g.mousePressEvent i) (ps ++ [i]) := by
  have hlt : g.drawn_count < n := by
    rcases Nat.lt_or_ge g.drawn_count n with h1 | h2
    · exact h1
    · have heq : g.drawn_count = n := Nat.le_antisymm h.drawn_le h2
      rw [mousePress_allInactive g (h.inactive heq) i] at hlt2
      omega
  have hrm' := hrm hlt
  unfold Tool.HexGridDrawView.mousePressEvent at hlt2 ⊢
  cases hg : g.tiles[i]? with
  | none =>
    dsimp only
    have hge : g.tiles.length ≤ i := List.getElem?_eq_none_iff.mp hg
    intro j hj
    simp only [List.mem_append, List.mem_singleton]
    constructor
    · intro hr
      exact Or.inl ((hrm' j hj).mp hr)
    · rintro (hp | rfl)
      · exact (hrm' j hj).mpr hp
      · exact absurd hj (by omega)
  | some t =>
    rw [hg] at hlt2
    dsimp only at hlt2 ⊢
    by_cases hcond : (t.is_active && !t.is_revealed) = true
    · rw [if_pos hcond] at hlt2 ⊢
      have hcond' := hcond
      rw [Bool.and_eq_true, Bool.not_eq_true'] at hcond'
      obtain ⟨hact, hrev⟩ := hcond'
      have hilen : i < g.tiles.length := by
        rcases List.getElem?_eq_some_iff.mp hg with ⟨hlen, _⟩
        exact hlen
      rw [on_tile_revealed_drawn] at hlt2
      dsimp only at hlt2
      unfold Tool.HexGridDrawView.on_tile_revealed
      dsimp only
      rw [if_neg (show ¬ (g.draw_limit ≤ g.drawn_count + 1) by
        rw [h.limit]; omega)]
      intro j hj
      rw [List.length_set] at hj
      simp only [List.mem_append, List.mem_singleton]
      unfold Tool.HexGridDrawView.tileRevealed
      dsimp only
      by_cases hji : j = i
      · subst hji
        rw [List.getElem?_set_self hilen]
        simp [tool_reveal_is_revealed t hrev]
      · rw [List.getElem?_set_ne (fun hne => hji hne.symm)]
        have := hrm' j hj
        unfold Tool.HexGridDrawView.tileRevealed at this
        constructor
        · intro hr
          exact Or.inl (this.mp hr)
        · rintro (hp | rfl)
          · exact this.mpr hp
          · exact absurd rfl hji
    · rw [if_neg hcond] at hlt2 ⊢
      have hact : t.is_active = true := h.active hlt t (List.getElem?_mem hg)
      have hrev : t.is_revealed = true := by
        by_contra hr
        apply hcond
        rw [Bool.and_eq_true, Bool.not_eq_true']
        exact ⟨hact, by simpa using hr⟩
      intro j hj
      simp only [List.mem_append, List.mem_singleton]
      constructor
      · intro hrj
        exact Or.inl ((hrm' j hj).mp hrj)
      · rintro (hp | rfl)
        · exact (hrm' j hj).mpr hp
        · unfold Tool.HexGridDrawView.tileRevealed
          rw [hg]
          simpa using hrev

lemma revealedMatches_fold (n : Nat) (clicks : List Nat) :
    ∀ (g : Tool.HexGridDrawView) (ps : List Nat), DrawInv n g →
      (g.drawn_count < n → RevealedMatches g ps) →
      ((clicks.foldl Tool.HexGridDrawView.mousePressEvent g).drawn_count < n →
        RevealedMatches (clicks.foldl Tool.HexGridDrawView.mousePressEvent g)
          (ps ++ clicks)) := by
  induction clicks with
  | nil =>
    intro g ps h hrm hlt
    simpa using hrm hlt
  | cons i cs ih =>
    intro g ps h hrm hlt
    rw [List.foldl_cons] at hlt ⊢
    rw [List.append_cons]
    exact ih (g.mousePressEvent i) (ps ++ [i]) (drawInv_step n g h i)
      (fun hlt2 => revealedMatches_step n g h ps hrm i hlt2) hlt

lemma fold_completes (n : Nat) (clicks : List Nat)
    (g : Tool.HexGridDrawView) (h : DrawInv n g)
    (hfresh : RevealedMatches g [])
    (hnm : n ≤ g.tiles.length)
    (hcover : ∀ j, j < g.tiles.length → j ∈ clicks) :
    (clicks.foldl Tool.HexGridDrawView.mousePressEvent g).drawn_count = n := by
  set gf := clicks.foldl Tool.HexGridDrawView.mousePressEvent g with hgf
  have hinv := drawInv_fold n clicks g h
  rw [← hgf] at hinv
  by_contra hne
  have hlt : gf.drawn_count < n := Nat.lt_of_le_of_ne hinv.drawn_le hne
  have hrm := revealedMatches_fold n clicks g [] h (fun _ => hfresh)
  rw [← hgf] at hrm
  have hrm' := hrm hlt
  simp only [List.nil_append] at hrm'
  have hflen : gf.tiles.length = g.tiles.length := by
    rw [hgf]; exact fold_length clicks g
  have hall : ∀ u ∈ gf.tiles, u.is_revealed = true := by
    intro u hu
    obtain ⟨j, hj⟩ := List.getElem?_of_mem hu
    have hjlen : j < gf.tiles.length := by
      rcases List.getElem?_eq_some_iff.mp hj with ⟨hl, _⟩
      exact hl
    have hmemc : j ∈ clicks := hcover j (by omega)
    have := (hrm' j hjlen).mpr hmemc
    unfold Tool.HexGridDrawView.tileRevealed at this
    rw [hj] at this
    simpa using this
  have hcnt : gf.revealedCount = gf.tiles.length := by
    unfold Tool.HexGridDrawView.revealedCount
    exact List.countP_eq_length.mpr hall
  have := hinv.drawn
  omega

end C2Lemmas

/-- A freshly rebuilt narrator grid: `update_grid_setup` calls
`setup_grid`, which replaces every tile with a face-down inactive one;
`order` is the shuffled tile-type list. -/
def Tool.freshGrid (order : List Nat) : Tool.HexGridDrawView :=
  Tool.HexGridDrawView.init.setup_grid order

/-- A sequence of player clicks on the narrator grid, each handled by
`HexGridDrawView.mousePressEvent`. -/
def Tool.runClicks (g : Tool.HexGridDrawView) (clicks : List Nat) :
    Tool.HexGridDrawView :=
  clicks.foldl Tool.HexGridDrawView.mousePressEvent g

section C2Setup

lemma setup_allInactive (g : Tool.HexGridDrawView) (order : List Nat) :
    (g.setup_grid order).allInactive := by
  intro t ht
  simp only [Tool.HexGridDrawView.setup_grid, List.mem_map] at ht
  obtain ⟨tt, _, rfl⟩ := ht
  rfl

lemma freshGrid_unrevealed (order : List Nat) :
    ∀ t ∈ (Tool.freshGrid order).tiles, t.is_revealed = false := by
  intro t ht
  simp only [Tool.freshGrid, Tool.HexGridDrawView.setup_grid,
    List.mem_map] at ht
  obtain ⟨tt, _, rfl⟩ := ht
  rfl

lemma start_draw_inv (g0 : Tool.HexGridDrawView) (n : Nat) (hn : 1 ≤ n)
    (hunrev : ∀ t ∈ g0.tiles, t.is_revealed = false)
    (hev : g0.drawFinished_events = []) :
    DrawInv n (g0.start_interactive_draw n) := by
  have hunrev' : ∀ t ∈ (g0.start_interactive_draw n).tiles,
      t.is_revealed = false := by
    intro t ht
    simp only [Tool.HexGridDrawView.start_interactive_draw, List.mem_map] at ht
    obtain ⟨u, hu, rfl⟩ := ht
    exact hunrev u hu
  refine ⟨rfl, ?_, ?_, ?_, by show 0 ≤ n; omega, ?_, ?_, ?_⟩
  · dsimp only [Tool.HexGridDrawView.revealedCount]
    symm
    exact List.countP_eq_zero.mpr (fun t ht => by simp [hunrev' t ht])
  · dsimp only [Tool.HexGridDrawView.revealedSuccesses]
    symm
    exact List.countP_eq_zero.mpr (fun t ht => by simp [hunrev' t ht])
  · dsimp only [Tool.HexGridDrawView.revealedOthers]
    symm
    exact List.countP_eq_zero.mpr (fun t ht => by simp [hunrev' t ht])
  · intro _ t ht
    simp only [Tool.HexGridDrawView.start_interactive_draw, List.mem_map] at ht
    obtain ⟨u, _, rfl⟩ := ht
    rfl
  · intro h0
    exact absurd (show (0 : Nat) = n from h0) (by omega)
  · show g0.drawFinished_events = if (0 : Nat) = n then _ else []
    rw [hev, if_neg (by omega)]

lemma start_rm_empty (g0 : Tool.HexGridDrawView) (n : Nat)
    (hunrev : ∀ t ∈ g0.tiles, t.is_revealed = false) :
    RevealedMatches (g0.start_interactive_draw n) [] := by
  have hunrev' : ∀ t ∈ (g0.start_interactive_draw n).tiles,
      t.is_revealed = false := by
    intro t ht
    simp only [Tool.HexGridDrawView.start_interactive_draw, List.mem_map] at ht
    obtain ⟨u, hu, rfl⟩ := ht
    exact hunrev u hu
  intro j hj
  simp only [List.not_mem_nil, iff_false]
  unfold Tool.HexGridDrawView.tileRevealed
  cases hg : (g0.start_interactive_draw n).tiles[j]? with
  | none => simp
  | some t => simp [hunrev' t (List.getElem?_mem hg)]

lemma start_length (g0 : Tool.HexGridDrawView) (n : Nat) :
    (g0.start_interactive_draw n).tiles.length = g0.tiles.length := by
  simp [Tool.HexGridDrawView.start_interactive_draw]

end C2Setup

/-- C2: counted-draw mode on the narrator grid.  A zero quota or a quota
exceeding the pool size is rejected with an error text, no draw is
started and no clicks can reveal anything.  A quota `1 ≤ n ≤ poolSize`
activates every tile; after any click sequence the number the view has
counted equals the number of revealed tiles, at most `n` distinct tiles
ever get revealed, `drawFinished` fires with the revealed-tile tally
exactly when the `n`-th tile is revealed, afterwards every tile is
inactive and further clicks do nothing; and a click sequence covering
all tile indices does complete the draw. -/
theorem C2_counted_draw_quota (n : Nat) (order clicks : List Nat) :
    (n = 0 →
      Tool.begin_interactive_draw (Tool.freshGrid order) n =
        Except.error "Cannot reveal 0 tiles. Please select at least 1." ∧
      Tool.runClicks (Tool.freshGrid order) clicks = Tool.freshGrid order) ∧
    ((Tool.freshGrid order).tiles.length < n →
      (∃ msg, Tool.begin_interactive_draw (Tool.freshGrid order) n =
        Except.error msg) ∧
      Tool.runClicks (Tool.freshGrid order) clicks = Tool.freshGrid order) ∧
    (1 ≤ n → n ≤ (Tool.freshGrid order).tiles.length →
      Tool.begin_interactive_draw (Tool.freshGrid order) n =
        Except.ok ((Tool.freshGrid order).start_interactive_draw n) ∧
      ((Tool.freshGrid order).start_interactive_draw n).allActive ∧
      (Tool.runClicks ((Tool.freshGrid order).start_interactive_draw n)
          clicks).drawn_count =
        (Tool.runClicks ((Tool.freshGrid order).start_interactive_draw n)
          clicks).revealedCount ∧
      (Tool.runClicks ((Tool.freshGrid order).start_interactive_draw n)
          clicks).drawn_count ≤ n ∧
      (Tool.runClicks ((Tool.freshGrid order).start_interactive_draw n)
          clicks).drawFinished_events =
        (if (Tool.runClicks ((Tool.freshGrid order).start_interactive_draw n)
              clicks).drawn_count = n
         then [((Tool.runClicks ((Tool.freshGrid order).start_interactive_draw n)
                  clicks).revealedSuccesses,
                (Tool.runClicks ((Tool.freshGrid order).start_interactive_draw n)
                  clicks).revealedOthers)]
         else []) ∧
      ((Tool.runClicks ((Tool.freshGrid order).start_interactive_draw n)
          clicks).drawn_count = n →
        (Tool.runClicks ((Tool.freshGrid order).start_interactive_draw n)
          clicks).allInactive ∧
        ∀ more : List Nat,
          Tool.runClicks
            (Tool.runClicks ((Tool.freshGrid order).start_interactive_draw n)
              clicks) more =
          Tool.runClicks ((Tool.freshGrid order).start_interactive_draw n)
            clicks) ∧
      ((∀ j, j < (Tool.freshGrid order).tiles.length → j ∈ clicks) →
        (Tool.runClicks ((Tool.freshGrid order).start_interactive_draw n)
          clicks).drawn_count = n)) := by
  refine ⟨?_, ?_, ?_⟩
  · intro h0
    subst h0
    refine ⟨by rfl, ?_⟩
    exact fold_allInactive _ (setup_allInactive _ _) clicks
  · intro hlen
    constructor
    · unfold Tool.begin_interactive_draw
      dsimp only
      rw [if_neg (by simp only [beq_iff_eq]; omega), if_pos hlen]
      exact ⟨_, rfl⟩
    · exact fold_allInactive _ (setup_allInactive _ _) clicks
  · intro hn1 hnle
    have hinv0 : DrawInv n ((Tool.freshGrid order).start_interactive_draw n) :=
      start_draw_inv _ n hn1 (freshGrid_unrevealed order) rfl
    have hinv : DrawInv n
        (Tool.runClicks ((Tool.freshGrid order).start_interactive_draw n) clicks) :=
      drawInv_fold n clicks _ hinv0
    refine ⟨?_, ?_, hinv.drawn, hinv.drawn_le, ?_, ?_, ?_⟩
    · unfold Tool.begin_interactive_draw
      dsimp only
      rw [if_neg (by simp only [beq_iff_eq]; omega), if_neg (by omega)]
    · intro t ht
      simp only [Tool.HexGridDrawView.start_interactive_draw, List.mem_map] at ht
      obtain ⟨u, _, rfl⟩ := ht
      rfl
    · rw [hinv.events, hinv.succs, hinv.comps]
    · intro hdone
      refine ⟨hinv.inactive hdone, fun more => ?_⟩
      exact fold_allInactive _ (hinv.inactive hdone) more
    · intro hcover
      apply fold_completes n clicks _ hinv0
        (start_rm_empty _ n (freshGrid_unrevealed order))
      · rw [start_length]; exact hnle
      · intro j hj
        rw [start_length] at hj
        exact hcover j hj

/-- C2 (witness): instantiates `C2_counted_draw_quota`'s accepting case
at quota 1 on a two-tile pool with clicks `[0, 1]`. -/
theorem C2_counted_draw_quota_witness :
    ((1 ≤ 1 ∧ 1 ≤ (Tool.freshGrid [1, 2]).tiles.length) ∧
      (Tool.begin_interactive_draw (Tool.freshGrid [1, 2]) 1 =
          Except.ok ((Tool.freshGrid [1, 2]).start_interactive_draw 1) ∧
        ((Tool.freshGrid [1, 2]).start_interactive_draw 1).allActive ∧
        (Tool.runClicks ((Tool.freshGrid [1, 2]).start_interactive_draw 1)
            [0, 1]).drawn_count =
          (Tool.runClicks ((Tool.freshGrid [1, 2]).start_interactive_draw 1)
            [0, 1]).revealedCount ∧
        (Tool.runClicks ((Tool.freshGrid [1, 2]).start_interactive_draw 1)
            [0, 1]).drawn_count ≤ 1 ∧
        (Tool.runClicks ((Tool.freshGrid [1, 2]).start_interactive_draw 1)
            [0, 1]).drawFinished_events =
          (if (Tool.runClicks ((Tool.freshGrid [1, 2]).start_interactive_draw 1)
                [0, 1]).drawn_count = 1
           then [((Tool.runClicks
                    ((Tool.freshGrid [1, 2]).start_interactive_draw 1)
                    [0, 1]).revealedSuccesses,
                  (Tool.runClicks
                    ((Tool.freshGrid [1, 2]).start_interactive_draw 1)
                    [0, 1]).revealedOthers)]
           else []) ∧
        ((Tool.runClicks ((Tool.freshGrid [1, 2]).start_interactive_draw 1)
            [0, 1]).drawn_count = 1 →
          (Tool.runClicks ((Tool.freshGrid [1, 2]).start_interactive_draw 1)
            [0, 1]).allInactive ∧
          ∀ more : List Nat,
            Tool.runClicks
              (Tool.runClicks ((Tool.freshGrid [1, 2]).start_interactive_draw 1)
                [0, 1]) more =
            Tool.runClicks ((Tool.freshGrid [1, 2]).start_interactive_draw 1)
              [0, 1]) ∧
        ((∀ j, j < (Tool.freshGrid [1, 2]).tiles.length → j ∈ [0, 1]) →
          (Tool.runClicks ((Tool.freshGrid [1, 2]).start_interactive_draw 1)
            [0, 1]).drawn_count = 1))) :=
  ⟨⟨by decide, by decide⟩,
    (C2_counted_draw_quota 1 [1, 2] [0, 1]).2.2 (by decide) (by decide)⟩

/-- A sequence of player clicks on the player draw view, each handled by
`DrawView.mousePressEvent`. -/
def Player.runClicks (g : Player.DrawView) (clicks : List Nat) :
    Player.DrawView :=
  clicks.foldl Player.DrawView.mousePressEvent g

/-- Whether the player tile at index `j` is revealed (`false` out of
range). -/
def Player.DrawView.tileRevealed (g : Player.DrawView) (j : Nat) : Bool :=
  ((g.tiles[j]?).map (fun t => t.is_revealed)).getD false

section C3C4Lemmas

lemma player_reveal_tile_type (t : Player.HexTileItem) :
    t.reveal.tile_type = t.tile_type := by
  unfold Player.HexTileItem.reveal; split <;> rfl

lemma player_reveal_of_revealed (t : Player.HexTileItem)
    (h : t.is_revealed = true) : t.reveal = t := by
  unfold Player.HexTileItem.reveal; rw [h]; rfl

lemma player_reveal_revealed (t : Player.HexTileItem) :
    t.reveal.is_revealed = true := by
  unfold Player.HexTileItem.reveal
  split
  case isTrue h => exact h
  case isFalse h => rfl

lemma player_reveal_idem (t : Player.HexTileItem) : t.reveal.reveal = t.reveal :=
  player_reveal_of_revealed _ (player_reveal_revealed t)

lemma tool_reveal_of_revealed (t : Tool.HexTileItem)
    (h : t.is_revealed = true) : t.reveal = t := by
  unfold Tool.HexTileItem.reveal; rw [h]; rfl

lemma tool_reveal_revealed (t : Tool.HexTileItem) :
    t.reveal.is_revealed = true := by
  unfold Tool.HexTileItem.reveal
  split
  case isTrue h => exact h
  case isFalse h => rfl

lemma tool_reveal_idem (t : Tool.HexTileItem) : t.reveal.reveal = t.reveal :=
  tool_reveal_of_revealed _ (tool_reveal_revealed t)

lemma countP_set_same {α : Type} (p : α → Bool) :
    ∀ (l : List α) (i : Nat) (t t' : α), l[i]? = some t → p t' = p t →
      (l.set i t').countP p = l.countP p := by
  intro l
  induction l with
  | nil => intro i t t' h _; simp at h
  | cons a as ih =>
    intro i t t' h hp
    cases i with
    | zero =>
      simp only [List.getElem?_cons_zero, Option.some.injEq] at h
      subst h
      simp [List.countP_cons, hp]
    | succ j =>
      simp only [List.getElem?_cons_succ] at h
      simp [List.countP_cons, ih j t t' h hp]

lemma countP_split {α : Type} (p q : α → Bool) (l : List α) :
    l.countP q =
      l.countP (fun x => p x && q x) + l.countP (fun x => !p x && q x) := by
  induction l with
  | nil => rfl
  | cons a as ih =>
    simp only [List.countP_cons, ih]
    cases hp : p a <;> cases hq : q a <;> simp <;> omega

lemma pmousePress_length (g : Player.DrawView) (i : Nat) :
    (g.mousePressEvent i).tiles.length = g.tiles.length := by
  unfold Player.DrawView.mousePressEvent
  cases hg : g.tiles[i]? with
  | none => rfl
  | some t => simp

lemma prun_length (clicks : List Nat) :
    ∀ g : Player.DrawView,
      (Player.runClicks g clicks).tiles.length = g.tiles.length := by
  induction clicks with
  | nil => intro g; rfl
  | cons i cs ih =>
    intro g
    show (Player.runClicks (g.mousePressEvent i) cs).tiles.length = _
    rw [ih, pmousePress_length]

lemma pmousePress_typeCount (g : Player.DrawView) (i : Nat)
    (p : Player.HexTileItem → Bool)
    (hp : ∀ t : Player.HexTileItem, p t.reveal = p t) :
    (g.mousePressEvent i).tiles.countP p = g.tiles.countP p := by
  unfold Player.DrawView.mousePressEvent
  cases hg : g.tiles[i]? with
  | none => rfl
  | some t =>
    dsimp only
    exact countP_set_same p g.tiles i t t.reveal hg (hp t)

lemma prun_typeCount (clicks : List Nat) :
    ∀ (g : Player.DrawView) (p : Player.HexTileItem → Bool),
      (∀ t : Player.HexTileItem, p t.reveal = p t) →
      (Player.runClicks g clicks).tiles.countP p = g.tiles.countP p := by
  induction clicks with
  | nil => intro g p _; rfl
  | cons i cs ih =>
    intro g p hp
    show (Player.runClicks (g.mousePressEvent i) cs).tiles.countP p = _
    rw [ih _ p hp, pmousePress_typeCount g i p hp]

lemma pmousePress_tileRevealed_mono (g : Player.DrawView) (i j : Nat)
    (h : g.tileRevealed j = true) :
    (g.mousePressEvent i).tileRevealed j = true := by
  unfold Player.DrawView.mousePressEvent
  unfold Player.DrawView.tileRevealed at h ⊢
  cases hg : g.tiles[i]? with
  | none => exact h
  | some t =>
    dsimp only
    by_cases hij : i = j
    · subst hij
      have hlen : i < g.tiles.length := (List.getElem?_eq_some_iff.mp hg).1
      rw [List.getElem?_set_self hlen]
      simp [player_reveal_revealed]
    · rw [List.getElem?_set_ne hij]
      exact h

lemma pmousePress_tileRevealed_self (g : Player.DrawView) (j : Nat)
    (hj : j < g.tiles.length) :
    (g.mousePressEvent j).tileRevealed j = true := by
  unfold Player.DrawView.mousePressEvent Player.DrawView.tileRevealed
  cases hg : g.tiles[j]? with
  | none => exact absurd (List.getElem?_eq_none_iff.mp hg) (by omega)
  | some t =>
    dsimp only
    rw [List.getElem?_set_self hj]
    simp [player_reveal_revealed]

lemma prun_mono (clicks : List Nat) :
    ∀ (g : Player.DrawView) (j : Nat), g.tileRevealed j = true →
      (Player.runClicks g clicks).tileRevealed j = true := by
  induction clicks with
  | nil => intro g j h; exact h
  | cons i cs ih =>
    intro g j h
    exact ih (g.mousePressEvent i) j (pmousePress_tileRevealed_mono g i j h)

lemma prun_covers (clicks : List Nat) :
    ∀ (g : Player.DrawView) (j : Nat), j < g.tiles.length → j ∈ clicks →
      (Player.runClicks g clicks).tileRevealed j = true := by
  induction clicks with
  | nil => intro g j _ hm; simp at hm
  | cons i cs ih =>
    intro g j hj hm
    rcases List.mem_cons.mp hm with rfl | hm'
    · exact prun_mono cs (g.mousePressEvent j) j
        (pmousePress_tileRevealed_self g j hj)
    · exact ih (g.mousePressEvent i) j
        (by rw [pmousePress_length]; exact hj) hm'

lemma pmousePress_twice (g : Player.DrawView) (i : Nat) :
    (g.mousePressEvent i).mousePressEvent i = g.mousePressEvent i := by
  cases hg : g.tiles[i]? with
  | none =>
    have h1 : g.mousePressEvent i = g := by
      unfold Player.DrawView.mousePressEvent; rw [hg]
    rw [h1, h1]
  | some t =>
    have hlen : i < g.tiles.length := (List.getElem?_eq_some_iff.mp hg).1
    have h1 : g.mousePressEvent i = { tiles := g.tiles.set i t.reveal } := by
      unfold Player.DrawView.mousePressEvent; rw [hg]
    rw [h1]
    unfold Player.DrawView.mousePressEvent
    rw [show ({ tiles := g.tiles.set i t.reveal } :
        Player.DrawView).tiles[i]? = some t.reveal from
      List.getElem?_set_self (by simpa using hlen)]
    dsimp only
    rw [List.set_set, player_reveal_idem]

end C3C4Lemmas

/-- C3: the tally counts only revealed tiles by type — each component of
`get_results` plus the same-typed unrevealed tiles gives the full
composition count, so a tally before full reveal is partial — and after
a click sequence that covers every tile index (all tiles revealed, in
any order) the tally equals exactly `(s, c)`.  Stated for an arbitrary
tile list with exactly `s` Success and `c` Complication tiles — every
pool with the claimed composition — since the player-side `setup_grid`
itself raises `NameError` on every call and never creates one. -/
theorem C3_tally_correctness (s c : Nat) (tiles : List Player.HexTileItem)
    (clicks : List Nat)
    (hs : tiles.countP (fun t => t.tile_type == TILE_TYPE_SUCCESS) = s)
    (hc : tiles.countP (fun t => t.tile_type == TILE_TYPE_COMPLICATION) = c) :
    (Player.runClicks (Player.DrawView.mk tiles) clicks).get_results.1 +
        (Player.runClicks (Player.DrawView.mk tiles) clicks).tiles.countP
          (fun t => !t.is_revealed && t.tile_type == TILE_TYPE_SUCCESS) = s ∧
    (Player.runClicks (Player.DrawView.mk tiles) clicks).get_results.2 +
        (Player.runClicks (Player.DrawView.mk tiles) clicks).tiles.countP
          (fun t => !t.is_revealed && t.tile_type == TILE_TYPE_COMPLICATION) = c ∧
    ((∀ j, j < tiles.length → j ∈ clicks) →
      (Player.runClicks (Player.DrawView.mk tiles) clicks).get_results =
        (s, c)) := by
  have hgs : (Player.runClicks (Player.DrawView.mk tiles)
      clicks).tiles.countP (fun t => t.tile_type == TILE_TYPE_SUCCESS) = s := by
    rw [prun_typeCount clicks _ _
      (fun t => by rw [player_reveal_tile_type])]
    exact hs
  have hgc : (Player.runClicks (Player.DrawView.mk tiles)
      clicks).tiles.countP
      (fun t => t.tile_type == TILE_TYPE_COMPLICATION) = c := by
    rw [prun_typeCount clicks _ _
      (fun t => by rw [player_reveal_tile_type])]
    exact hc
  have hsplit1 := countP_split (fun t : Player.HexTileItem => t.is_revealed)
    (fun t => t.tile_type == TILE_TYPE_SUCCESS)
    (Player.runClicks (Player.DrawView.mk tiles) clicks).tiles
  have hsplit2 := countP_split (fun t : Player.HexTileItem => t.is_revealed)
    (fun t => t.tile_type == TILE_TYPE_COMPLICATION)
    (Player.runClicks (Player.DrawView.mk tiles) clicks).tiles
  refine ⟨?_, ?_, ?_⟩
  · dsimp only [Player.DrawView.get_results]
    omega
  · dsimp only [Player.DrawView.get_results]
    omega
  · intro hcover
    have hall : ∀ u ∈ (Player.runClicks (Player.DrawView.mk tiles)
        clicks).tiles, u.is_revealed = true := by
      intro u hu
      obtain ⟨j, hj⟩ := List.getElem?_of_mem hu
      have hjl : j < (Player.runClicks (Player.DrawView.mk tiles)
          clicks).tiles.length := (List.getElem?_eq_some_iff.mp hj).1
      have hjl0 : j < (Player.DrawView.mk tiles).tiles.length := by
        rw [← prun_length clicks]; exact hjl
      have hrev := prun_covers clicks (Player.DrawView.mk tiles)
        j hjl0 (hcover j hjl0)
      unfold Player.DrawView.tileRevealed at hrev
      rw [hj] at hrev
      simpa using hrev
    have e1' : (Player.runClicks (Player.DrawView.mk tiles)
        clicks).tiles.countP
        (fun t => t.is_revealed && t.tile_type == TILE_TYPE_SUCCESS) =
          (Player.runClicks (Player.DrawView.mk tiles)
        clicks).tiles.countP (fun t => t.tile_type == TILE_TYPE_SUCCESS) :=
      List.countP_congr (fun u hu => by simp [hall u hu])
    have e1 := e1'.trans hgs
    have e2' : (Player.runClicks (Player.DrawView.mk tiles)
        clicks).tiles.countP
        (fun t => t.is_revealed && t.tile_type == TILE_TYPE_COMPLICATION) =
          (Player.runClicks (Player.DrawView.mk tiles)
        clicks).tiles.countP
          (fun t => t.tile_type == TILE_TYPE_COMPLICATION) :=
      List.countP_congr (fun u hu => by simp [hall u hu])
    have e2 := e2'.trans hgc
    dsimp only [Player.DrawView.get_results]
    rw [e1, e2]

/-- C3 (witness): instantiates `C3_tally_correctness` on the two-tile
pool `[Complication, Success]` with the covering click sequence
`[1, 0]`. -/
theorem C3_tally_correctness_witness :
    ([Player.mkTile 2, Player.mkTile 1].countP
        (fun t => t.tile_type == TILE_TYPE_SUCCESS) = 1) ∧
    ([Player.mkTile 2, Player.mkTile 1].countP
        (fun t => t.tile_type == TILE_TYPE_COMPLICATION) = 1) ∧
    ((Player.runClicks (Player.DrawView.mk [Player.mkTile 2, Player.mkTile 1])
          [1, 0]).get_results.1 +
        (Player.runClicks (Player.DrawView.mk
            [Player.mkTile 2, Player.mkTile 1]) [1, 0]).tiles.countP
          (fun t => !t.is_revealed && t.tile_type == TILE_TYPE_SUCCESS) = 1 ∧
    (Player.runClicks (Player.DrawView.mk [Player.mkTile 2, Player.mkTile 1])
          [1, 0]).get_results.2 +
        (Player.runClicks (Player.DrawView.mk
            [Player.mkTile 2, Player.mkTile 1]) [1, 0]).tiles.countP
          (fun t => !t.is_revealed && t.tile_type == TILE_TYPE_COMPLICATION)
          = 1 ∧
    ((∀ j, j < ([Player.mkTile 2, Player.mkTile 1] :
        List Player.HexTileItem).length → j ∈ [1, 0]) →
      (Player.runClicks (Player.DrawView.mk
          [Player.mkTile 2, Player.mkTile 1]) [1, 0]).get_results =
        (1, 1))) :=
  ⟨by decide, by decide,
    C3_tally_correctness 1 1 [Player.mkTile 2, Player.mkTile 1] [1, 0]
      (by decide) (by decide)⟩

/-- C4: `reveal` is idempotent on both sides — revealing an
already-revealed tile is a no-op, `reveal` never changes the recorded
tile type, revealing twice equals revealing once — and at the pool
level a second click on the same player tile index changes neither the
state nor the tally. -/
theorem C4_reveal_idempotent :
    (∀ t : Player.HexTileItem, t.is_revealed = true → t.reveal = t) ∧
    (∀ t : Tool.HexTileItem, t.is_revealed = true → t.reveal = t) ∧
    (∀ t : Player.HexTileItem,
      t.reveal.tile_type = t.tile_type ∧ t.reveal.reveal = t.reveal) ∧
    (∀ t : Tool.HexTileItem,
      t.reveal.tile_type = t.tile_type ∧ t.reveal.reveal = t.reveal) ∧
    (∀ (g : Player.DrawView) (i : Nat),
      (g.mousePressEvent i).mousePressEvent i = g.mousePressEvent i ∧
      ((g.mousePressEvent i).mousePressEvent i).get_results =
        (g.mousePressEvent i).get_results) :=
  ⟨player_reveal_of_revealed, tool_reveal_of_revealed,
   fun t => ⟨player_reveal_tile_type t, player_reveal_idem t⟩,
   fun t => ⟨tool_reveal_tile_type t, tool_reveal_idem t⟩,
   fun g i => ⟨pmousePress_twice g i, by rw [pmousePress_twice]⟩⟩

/-- C4 (witness): applies `C4_reveal_idempotent`'s no-op parts to
concrete already-revealed tiles. -/
theorem C4_reveal_idempotent_witness :
    ((Player.HexTileItem.mk 1 true SUCCESS_COLOR).is_revealed = true) ∧
    Player.HexTileItem.reveal (Player.HexTileItem.mk 1 true SUCCESS_COLOR) =
      Player.HexTileItem.mk 1 true SUCCESS_COLOR ∧
    ((Tool.HexTileItem.mk 2 true false COMPLICATION_COLOR).is_revealed = true) ∧
    Tool.HexTileItem.reveal (Tool.HexTileItem.mk 2 true false COMPLICATION_COLOR) =
      Tool.HexTileItem.mk 2 true false COMPLICATION_COLOR :=
  ⟨by decide, C4_reveal_idempotent.1 _ (by decide), by decide,
    C4_reveal_idempotent.2.1 _ (by decide)⟩

namespace Player

/-- `EditableHexagon` of nte_player_v1.py: selection and lock flags, the
text item's plain-text contents and the placeholder.  Pen/brush colours,
geometry and text-interaction flags are excluded UI state. -/
structure EditableHexagon where
  hex_type : String
  is_selectable : Bool
  is_selected : Bool
  is_locked : Bool
  text : String
  placeholder_text : String
deriving Repr, DecidableEq

/-- `EditableHexagon.__init__(hex_type, placeholder_text)`: not
selectable, not selected, locked, empty text. -/
def EditableHexagon.init (hex_type placeholder_text : String) :
    EditableHexagon :=
  { hex_type := hex_type, is_selectable := false, is_selected := false,
    is_locked := true, text := "", placeholder_text := placeholder_text }

/-- Python `str.strip()`: removes leading and trailing whitespace.
Modelled on the character list because `String.trim` is not
kernel-reducible. -/
def pyStrip (s : String) : String :=
  String.mk (((s.toList.dropWhile Char.isWhitespace).reverse.dropWhile
    Char.isWhitespace).reverse)

/-- `EditableHexagon.get_text`: the stripped text, with the placeholder
reading as empty. -/
def EditableHexagon.get_text (h : EditableHexagon) : String :=
  let text := pyStrip h.text
  if text = h.placeholder_text then "" else text

/-- `EditableHexagon.set_selected` (the pen change is excluded UI). -/
def EditableHexagon.set_selected (h : EditableHexagon) (selected : Bool) :
    EditableHexagon :=
  { h with is_selected := selected }

/-- `EditableHexagon.set_selectable`: records the flag and deselects when
selection is turned off. -/
def EditableHexagon.set_selectable (h : EditableHexagon) (selectable : Bool) :
    EditableHexagon :=
  let h1 := { h with is_selectable := selectable }
  if selectable then h1 else h1.set_selected false

/-- `EditableHexagon.mousePressEvent`: toggles selection only when the
hexagon is selectable and its text is non-empty (Python truthiness of
`self.get_text()`); the text-interaction-flag branch is excluded UI. -/
def EditableHexagon.mousePressEvent (h : EditableHexagon) : EditableHexagon :=
  if h.is_selectable && (h.get_text != "") then h.set_selected (!h.is_selected)
  else h

/-- `HeroSheetView`: the archetype hexagon, 6 quality hexagons and 12
ability hexagons (connecting lines and layout are excluded UI). -/
structure HeroSheetView where
  archetype_hex : EditableHexagon
  quality_hexes : List EditableHexagon
  ability_hexes : List EditableHexagon
deriving Repr, DecidableEq

/-- The iteration order `[self.archetype_hex] + self.quality_hexes +
self.ability_hexes` used by the view's loops. -/
def HeroSheetView.allHexes (v : HeroSheetView) : List EditableHexagon :=
  [v.archetype_hex] ++ v.quality_hexes ++ v.ability_hexes

/-- `HeroSheetView.create_hero_sheet_items`: one archetype, 6 qualities,
12 abilities, all freshly initialised. -/
def HeroSheetView.init : HeroSheetView :=
  { archetype_hex := EditableHexagon.init "Archetype" "ARCHETYPE",
    quality_hexes := List.replicate 6 (EditableHexagon.init "Quality" "QUALITY"),
    ability_hexes := List.replicate 12 (EditableHexagon.init "Ability" "ABILITY") }

/-- `HeroSheetView.set_selection_mode`: sets `set_selectable` on every
hexagon. -/
def HeroSheetView.set_selection_mode (v : HeroSheetView) (enabled : Bool) :
    HeroSheetView :=
  { archetype_hex := v.archetype_hex.set_selectable enabled,
    quality_hexes := v.quality_hexes.map (fun h => h.set_selectable enabled),
    ability_hexes := v.ability_hexes.map (fun h => h.set_selectable enabled) }

/-- `HeroSheetView.get_selected_traits_count`: the number of selected
hexagons. -/
def HeroSheetView.get_selected_traits_count (v : HeroSheetView) : Nat :=
  v.allHexes.countP (fun h => h.is_selected)

/-- The client-to-narrator messages sent over the socket; character
payloads are excluded (they are opaque to the session logic modelled
here). -/
inductive ClientMsg where
  | connect_sheet
  | update_sheet
  | draw_result (successes complications : Nat)
deriving Repr, DecidableEq

/-- `NetworkClient` state: the socket handle (present or `None`), the
`running` flag, and logs of sent messages, `connection_lost` emissions
and `socket.close()` calls. -/
structure NetworkClient where
  socket : Option Unit
  running : Bool
  sent : List ClientMsg
  connection_lost_signals : Nat
  closed_sockets : Nat
deriving Repr, DecidableEq

/-- `NetworkClient.__init__`: no socket, not running. -/
def NetworkClient.init : NetworkClient :=
  { socket := none, running := false, sent := [],
    connection_lost_signals := 0, closed_sockets := 0 }

/-- `NetworkClient.disconnect`: clears `running`, closes and clears the
socket when one is held, and unconditionally emits `connection_lost`. -/
def NetworkClient.disconnect (c : NetworkClient) : NetworkClient :=
  let c1 := { c with running := false }
  let c2 :=
    if c1.socket.isSome then
      { c1 with socket := none, closed_sockets := c1.closed_sockets + 1 }
    else c1
  { c2 with connection_lost_signals := c2.connection_lost_signals + 1 }

/-- `NetworkClient.send_data`: silently drops the message when there is
no socket or the client is not running; the success path of `sendall`
(transport failures are out of scope). -/
def NetworkClient.send_data (c : NetworkClient) (m : ClientMsg) :
    NetworkClient :=
  if c.socket.isNone || !c.running then c
  else { c with sent := c.sent ++ [m] }

/-- The success path of `NetworkClient.connect`: a socket is created and
connected, `running` is set, and the `connect` command with the current
sheet is transmitted. -/
def NetworkClient.connect_success (c : NetworkClient) : NetworkClient :=
  let c1 := { c with socket := some (), running := true }
  c1.send_data ClientMsg.connect_sheet

/-- The `start_test` message payload (`difficulty`, `danger`). -/
structure StartTest where
  difficulty : Nat
  danger : Nat
deriving Repr, DecidableEq

/-- Which widget the `main_stack` currently shows. -/
inductive Widget where
  | heroSheet
  | draw
deriving Repr, DecidableEq

/-- `PlayerApp` session state: hero sheet, draw view, the stored test
data (`{}` modelled as `none`), stack selection, control-panel
visibility and the network client. -/
structure PlayerApp where
  hero_sheet_view : HeroSheetView
  draw_view : DrawView
  current_test_data : Option StartTest
  current_widget : Widget
  panel_shown : Bool
  confirm_shown : Bool
  send_shown : Bool
  client : NetworkClient
deriving Repr, DecidableEq

/-- `PlayerApp.__init__`: fresh sheet and draw view, no test data, sheet
widget showing, test controls hidden, fresh client. -/
def PlayerApp.init : PlayerApp :=
  { hero_sheet_view := HeroSheetView.init, draw_view := DrawView.init,
    current_test_data := none, current_widget := Widget.heroSheet,
    panel_shown := false, confirm_shown := true, send_shown := true,
    client := NetworkClient.init }

/-- `self.current_test_data.get("difficulty", 0)`. -/
def PlayerApp.test_difficulty (a : PlayerApp) : Nat :=
  match a.current_test_data with
  | some td => td.difficulty
  | none => 0

/-- `PlayerApp.enter_selection_mode(test_data)`: stores the test data,
enables selection on the sheet, shows the test controls with only the
confirm button, and shows the hero sheet widget. -/
def PlayerApp.enter_selection_mode (a : PlayerApp) (test_data : StartTest) :
    PlayerApp :=
  { a with current_test_data := some test_data,
           hero_sheet_view := a.hero_sheet_view.set_selection_mode true,
           panel_shown := true, confirm_shown := true, send_shown := false,
           current_widget := Widget.heroSheet }

/-- `PlayerApp.enter_draw_mode`: reads `(difficulty, selected-count)`
and calls `DrawView.setup_grid(difficulty, successes, tile_size)`.
That call raises `NameError` (see `DrawView.setup_grid`), so the widget
switch and the button swap written after it never execute; the second
component of the result is the escaping exception. -/
def PlayerApp.enter_draw_mode (a : PlayerApp) : PlayerApp × Except String Unit :=
  let difficulty := a.test_difficulty
  let successes := a.hero_sheet_view.get_selected_traits_count
  match a.draw_view.setup_grid difficulty successes with
  | (dv, Except.error e) => ({ a with draw_view := dv }, Except.error e)
  | (dv, Except.ok _) =>
    ({ a with draw_view := dv, current_widget := Widget.draw,
              confirm_shown := false, send_shown := true }, Except.ok ())

/-- A click on tile `i` of the draw view while it is showing. -/
def PlayerApp.click_tile (a : PlayerApp) (i : Nat) : PlayerApp :=
  { a with draw_view := a.draw_view.mousePressEvent i }

/-- `PlayerApp.cancel_test`: disables selection mode, hides the test
controls, shows the hero sheet and clears the stored test data (the
draw view's tiles are not touched). -/
def PlayerApp.cancel_test (a : PlayerApp) : PlayerApp :=
  { a with hero_sheet_view := a.hero_sheet_view.set_selection_mode false,
           panel_shown := false, current_widget := Widget.heroSheet,
           current_test_data := none }

/-- `PlayerApp.send_results`: reads the tally from the draw view, sends
a `draw_result` message through the client, and runs `cancel_test`. -/
def PlayerApp.send_results (a : PlayerApp) : PlayerApp :=
  let res := a.draw_view.get_results
  let a1 := { a with client :=
    a.client.send_data (ClientMsg.draw_result res.1 res.2) }
  a1.cancel_test

/-- Every player tile revealed? -/
def DrawView.allRevealed (g : DrawView) : Bool :=
  g.tiles.all (fun t => t.is_revealed)

end Player

/-- C5 (code bug): every confirm crashes.  `enter_draw_mode` would
build the pool from `(selected-count, difficulty)`, but its
`setup_grid` call raises `NameError` at `random.shuffle(tile_types)` —
nte_player_v1.py never imports `random` — so the pool the claim
describes is never built: the tile list is left empty and the widget,
buttons, stored test data and client are untouched.  Shown for every
app state and evaluated at the concrete failing input
`start_test{difficulty: 1, danger: 0}` with zero traits selected. -/
theorem C5_confirm_crashes :
    (∀ a : Player.PlayerApp,
      (a.enter_draw_mode).2 = Except.error Player.nameErrorRandom ∧
      (a.enter_draw_mode).1.draw_view.tiles = [] ∧
      (a.enter_draw_mode).1.current_widget = a.current_widget ∧
      (a.enter_draw_mode).1.confirm_shown = a.confirm_shown ∧
      (a.enter_draw_mode).1.send_shown = a.send_shown ∧
      (a.enter_draw_mode).1.current_test_data = a.current_test_data ∧
      (a.enter_draw_mode).1.client = a.client) ∧
    ((Player.PlayerApp.init.enter_selection_mode
        ⟨1, 0⟩).enter_draw_mode).2 = Except.error Player.nameErrorRandom ∧
    ((Player.PlayerApp.init.enter_selection_mode
        ⟨1, 0⟩).enter_draw_mode).1.draw_view.tiles = [] := by
  refine ⟨fun a => ⟨rfl, rfl, rfl, rfl, rfl, rfl, rfl⟩, rfl, by decide⟩

/-- The PoolBuilt configuration spec section 4.4 describes after
`start_test{difficulty: 1, danger: 0}` and confirming with zero traits:
a connected client and a one-complication-tile pool showing in the draw
widget.  It is constructed directly because the shipped player cannot
reach any PoolBuilt state — every confirm raises `NameError` inside
`setup_grid` (proved alongside) — so the refutation is at the level of
the code's event handlers, which contain no automatic-emission logic. -/
def c6PoolBuiltState : Player.PlayerApp :=
  { Player.PlayerApp.init with
    client := Player.NetworkClient.init.connect_success,
    current_test_data := some ⟨1, 0⟩,
    current_widget := Player.Widget.draw,
    panel_shown := true, confirm_shown := false, send_shown := true,
    draw_view := { tiles := [Player.mkTile TILE_TYPE_COMPLICATION] } }

/-- C6 (counterexample): clicking the last face-down tile of
`c6PoolBuiltState` reveals every tile of the pool, yet nothing is
emitted or transmitted (the client has sent only the initial `connect`),
the stored test data is not cleared and the session stays in the draw
widget — the tile-click handler touches only the draw view, and no code
watches for full reveal.  Moreover the session cannot even reach a
PoolBuilt state: the confirm the spec's transition relies on raises
`NameError` with no tile placed. -/
theorem C6_counterexample :
    ((c6PoolBuiltState.click_tile 0).draw_view.allRevealed = true) ∧
    ((c6PoolBuiltState.click_tile 0).client.sent =
      [Player.ClientMsg.connect_sheet]) ∧
    ((c6PoolBuiltState.click_tile 0).current_test_data = some ⟨1, 0⟩) ∧
    ((c6PoolBuiltState.click_tile 0).panel_shown = true) ∧
    ((c6PoolBuiltState.click_tile 0).current_widget = Player.Widget.draw) ∧
    ((Player.PlayerApp.init.enter_selection_mode ⟨1, 0⟩).enter_draw_mode).2 =
      Except.error Player.nameErrorRandom ∧
    ((Player.PlayerApp.init.enter_selection_mode
        ⟨1, 0⟩).enter_draw_mode).1.draw_view.tiles = [] := by
  refine ⟨?_, ?_, ?_, ?_, ?_, rfl, ?_⟩ <;> decide

lemma sheet_deselected (v : Player.HeroSheetView) :
    ∀ h ∈ (v.set_selection_mode false).allHexes,
      h.is_selectable = false ∧ h.is_selected = false := by
  have hpoint : ∀ h0 : Player.EditableHexagon,
      (h0.set_selectable false).is_selectable = false ∧
      (h0.set_selectable false).is_selected = false := by
    intro h0
    unfold Player.EditableHexagon.set_selectable
    simp [Player.EditableHexagon.set_selected]
  intro h hh
  simp only [Player.HeroSheetView.allHexes,
    Player.HeroSheetView.set_selection_mode, List.cons_append,
    List.nil_append, List.mem_cons, List.mem_append, List.mem_map] at hh
  rcases hh with rfl | hh | hh
  · exact hpoint _
  · obtain ⟨h0, _, rfl⟩ := hh
    exact hpoint _
  · obtain ⟨h0, _, rfl⟩ := hh
    exact hpoint _

/-- C6 (amended): nothing is automatic.  A tile click changes only the
draw view — it never transmits, never clears the test data, never
leaves the draw widget.  The only emission path is the manual
"Send Draw Results" press: with a live connection, `send_results`
transmits one `draw_result` message carrying the tally of currently
revealed tiles, clears the stored test data, disables selection on
every hexagon, hides the test controls and returns to the hero-sheet
widget, leaving the draw view untouched.  And the PoolBuilt state
itself is unreachable in the shipped player: every confirm raises
`NameError` inside `setup_grid`. -/
theorem C6_amended_manual_send (a : Player.PlayerApp) (i : Nat)
    (hconn : a.client.socket.isSome = true)
    (hrun : a.client.running = true) :
    ((a.click_tile i).client = a.client ∧
      (a.click_tile i).current_test_data = a.current_test_data ∧
      (a.click_tile i).current_widget = a.current_widget ∧
      (a.click_tile i).panel_shown = a.panel_shown ∧
      (a.click_tile i).hero_sheet_view = a.hero_sheet_view) ∧
    (a.send_results).client.sent =
      a.client.sent ++ [Player.ClientMsg.draw_result
        (a.draw_view.get_results).1 (a.draw_view.get_results).2] ∧
    (a.send_results).current_test_data = none ∧
    (a.send_results).current_widget = Player.Widget.heroSheet ∧
    (a.send_results).panel_shown = false ∧
    (∀ h ∈ (a.send_results).hero_sheet_view.allHexes,
      h.is_selectable = false ∧ h.is_selected = false) ∧
    (a.send_results).draw_view = a.draw_view ∧
    (a.enter_draw_mode).2 = Except.error Player.nameErrorRandom := by
  have hsend : a.client.send_data (Player.ClientMsg.draw_result
      (a.draw_view.get_results).1 (a.draw_view.get_results).2) =
      { a.client with sent := a.client.sent ++ [Player.ClientMsg.draw_result
        (a.draw_view.get_results).1 (a.draw_view.get_results).2] } := by
    unfold Player.NetworkClient.send_data
    obtain ⟨u, hu⟩ := Option.isSome_iff_exists.mp hconn
    rw [if_neg (by simp [hu, hrun])]
  refine ⟨⟨rfl, rfl, rfl, rfl, rfl⟩, ?_, rfl, rfl, rfl, ?_, rfl, rfl⟩
  · show (a.client.send_data _).sent = _
    rw [hsend]
  · exact sheet_deselected a.hero_sheet_view

/-- C6 (amended, witness): applies `C6_amended_manual_send` to the
concrete state `c6PoolBuiltState` and tile index 0. -/
theorem C6_amended_manual_send_witness :
    c6PoolBuiltState.client.socket.isSome = true ∧
    c6PoolBuiltState.client.running = true ∧
    (((c6PoolBuiltState.click_tile 0).client = c6PoolBuiltState.client ∧
      (c6PoolBuiltState.click_tile 0).current_test_data =
        c6PoolBuiltState.current_test_data ∧
      (c6PoolBuiltState.click_tile 0).current_widget =
        c6PoolBuiltState.current_widget ∧
      (c6PoolBuiltState.click_tile 0).panel_shown =
        c6PoolBuiltState.panel_shown ∧
      (c6PoolBuiltState.click_tile 0).hero_sheet_view =
        c6PoolBuiltState.hero_sheet_view) ∧
    (c6PoolBuiltState.send_results).client.sent =
      c6PoolBuiltState.client.sent ++ [Player.ClientMsg.draw_result
        (c6PoolBuiltState.draw_view.get_results).1
        (c6PoolBuiltState.draw_view.get_results).2] ∧
    (c6PoolBuiltState.send_results).current_test_data = none ∧
    (c6PoolBuiltState.send_results).current_widget =
      Player.Widget.heroSheet ∧
    (c6PoolBuiltState.send_results).panel_shown = false ∧
    (∀ h ∈ (c6PoolBuiltState.send_results).hero_sheet_view.allHexes,
      h.is_selectable = false ∧ h.is_selected = false) ∧
    (c6PoolBuiltState.send_results).draw_view = c6PoolBuiltState.draw_view ∧
    (c6PoolBuiltState.enter_draw_mode).2 =
      Except.error Player.nameErrorRandom) :=
  ⟨by decide, by decide,
    C6_amended_manual_send c6PoolBuiltState 0 (by decide) (by decide)⟩

/-- C7 (counterexample): the claim says repeated `disconnect()` calls
while already disconnected surface no additional notification, but
`disconnect` emits `connection_lost` unconditionally: two calls on a
never-connected client (already in the disconnected state, socket
`None`) emit two notifications. -/
theorem C7_counterexample :
    Player.NetworkClient.init.running = false ∧
    Player.NetworkClient.init.socket = none ∧
    Player.NetworkClient.init.disconnect.disconnect.connection_lost_signals
      = 2 := by
  refine ⟨rfl, rfl, ?_⟩; decide

/-- C7 (amended): `disconnect()` is safe to call in any state, leaves
the client not running with no socket, closes the socket exactly when
one was open — but it emits the "disconnected" notification on every
invocation, not once per transition, so each further call while already
disconnected emits one more. -/
theorem C7_amended_disconnect (c : Player.NetworkClient) :
    (c.disconnect).running = false ∧
    (c.disconnect).socket = none ∧
    (c.disconnect).closed_sockets =
      c.closed_sockets + (if c.socket.isSome then 1 else 0) ∧
    (c.disconnect).connection_lost_signals = c.connection_lost_signals + 1 ∧
    (c.disconnect).sent = c.sent ∧
    (c.disconnect.disconnect).connection_lost_signals =
      c.connection_lost_signals + 2 ∧
    c.disconnect.disconnect.socket = none ∧
    c.disconnect.disconnect.running = false ∧
    c.disconnect.disconnect.closed_sockets = c.disconnect.closed_sockets := by
  cases hs : c.socket <;>
    simp [Player.NetworkClient.disconnect, hs]

/-- The events claim C8 quantifies over: clicks and selection-mode
changes on one hexagon. -/
inductive HexEvent where
  | click
  | set_selection (enabled : Bool)
deriving Repr, DecidableEq

/-- One event applied to an `EditableHexagon`. -/
def hexStep (h : Player.EditableHexagon) (e : HexEvent) :
    Player.EditableHexagon :=
  match e with
  | HexEvent.click => h.mousePressEvent
  | HexEvent.set_selection b => h.set_selectable b

lemma hexStep_text (h : Player.EditableHexagon) (e : HexEvent) :
    (hexStep h e).text = h.text ∧
    (hexStep h e).placeholder_text = h.placeholder_text := by
  cases e with
  | click =>
    dsimp only [hexStep]
    unfold Player.EditableHexagon.mousePressEvent
    split <;> simp [Player.EditableHexagon.set_selected]
  | set_selection b =>
    dsimp only [hexStep]
    unfold Player.EditableHexagon.set_selectable
    dsimp only
    split <;> simp [Player.EditableHexagon.set_selected]

lemma hexStep_get_text (h : Player.EditableHexagon) (e : HexEvent) :
    (hexStep h e).get_text = h.get_text := by
  unfold Player.EditableHexagon.get_text
  rw [(hexStep_text h e).1, (hexStep_text h e).2]

lemma hexStep_empty_unselected (h : Player.EditableHexagon) (e : HexEvent)
    (hempty : h.get_text = "") (hsel : h.is_selected = false) :
    (hexStep h e).is_selected = false := by
  cases e with
  | click =>
    dsimp only [hexStep]
    unfold Player.EditableHexagon.mousePressEvent
    rw [if_neg (by simp [hempty])]
    exact hsel
  | set_selection b =>
    dsimp only [hexStep]
    unfold Player.EditableHexagon.set_selectable
    dsimp only
    split <;> simp [Player.EditableHexagon.set_selected, hsel]

/-- C8: an empty-text trait is never selectable in effect — starting
from any unselected state with empty `get_text`, no sequence of clicks
and selection-mode changes ever marks it selected (its text never
changes under those events), and a click on an empty-text hexagon is a
complete no-op. -/
theorem C8_empty_trait_never_selected (h0 : Player.EditableHexagon)
    (hsel : h0.is_selected = false) (hempty : h0.get_text = "")
    (evs : List HexEvent) :
    (evs.foldl hexStep h0).is_selected = false ∧
    (evs.foldl hexStep h0).get_text = "" ∧
    (∀ h : Player.EditableHexagon, h.get_text = "" →
      h.mousePressEvent = h) := by
  refine ⟨?_, ?_, ?_⟩
  · induction evs generalizing h0 with
    | nil => exact hsel
    | cons e es ih =>
      exact ih (hexStep h0 e)
        (hexStep_empty_unselected h0 e hempty hsel)
        (by rw [hexStep_get_text]; exact hempty)
  · induction evs generalizing h0 with
    | nil => exact hempty
    | cons e es ih =>
      exact ih (hexStep h0 e)
        (hexStep_empty_unselected h0 e hempty hsel)
        (by rw [hexStep_get_text]; exact hempty)
  · intro h hh
    unfold Player.EditableHexagon.mousePressEvent
    rw [if_neg (by simp [hh])]

/-- C8 (witness): a freshly created quality hexagon (empty text) stays
unselected through enabling selection, clicking it, and disabling
selection. -/
theorem C8_empty_trait_never_selected_witness :
    (Player.EditableHexagon.init "Quality" "QUALITY").is_selected = false ∧
    (Player.EditableHexagon.init "Quality" "QUALITY").get_text = "" ∧
    (([HexEvent.set_selection true, HexEvent.click,
        HexEvent.set_selection false].foldl hexStep
        (Player.EditableHexagon.init "Quality" "QUALITY")).is_selected = false ∧
      ([HexEvent.set_selection true, HexEvent.click,
        HexEvent.set_selection false].foldl hexStep
        (Player.EditableHexagon.init "Quality" "QUALITY")).get_text = "" ∧
      (∀ h : Player.EditableHexagon, h.get_text = "" →
        h.mousePressEvent = h)) :=
  ⟨by decide, by decide,
    C8_empty_trait_never_selected (Player.EditableHexagon.init "Quality" "QUALITY")
      (by decide) (by decide)
      [HexEvent.set_selection true, HexEvent.click,
        HexEvent.set_selection false]⟩

/-- C1 (witness): instantiates `C1_amended_pool_composition` at
`s = 2`, `c = 1` with the concrete shuffle output `[2, 1, 1]`. -/
theorem C1_amended_pool_composition_witness :
    ([2, 1, 1] : List Nat).Perm (Tool.tile_types_base 2 1) ∧
    ((2 + 1 ≤ 19 →
      (Tool.HexGridDrawView.init.setup_grid [2, 1, 1]).tiles.length = 2 + 1 ∧
      (Tool.HexGridDrawView.init.setup_grid [2, 1, 1]).tiles.countP
          (fun t => t.tile_type == TILE_TYPE_SUCCESS) = 2 ∧
      (Tool.HexGridDrawView.init.setup_grid [2, 1, 1]).tiles.countP
          (fun t => t.tile_type == TILE_TYPE_COMPLICATION) = 1) ∧
    (Tool.HexGridDrawView.init.setup_grid [2, 1, 1]).tiles.length =
      min (2 + 1) 19 ∧
    (Tool.HexGridDrawView.init.setup_grid [2, 1, 1]).tiles.map
      (fun t => t.tile_type) = ([2, 1, 1] : List Nat).take 19 ∧
    (∀ (g : Player.DrawView) (complications successes : Nat),
      (g.setup_grid complications successes).2 =
        Except.error Player.nameErrorRandom ∧
      (g.setup_grid complications successes).1.tiles = [])) :=
  ⟨by decide, C1_amended_pool_composition 2 1 [2, 1, 1] (by decide)⟩

namespace Tool

/-- The `danger_text` lookup of `update_grid_setup`
(`.get(danger_val, "Unknown")`). -/
def danger_text (danger_val : Nat) : String :=
  match danger_val with
  | 0 => "Not Dangerous"
  | 1 => "Extremely Dangerous (Leaves on 1+)"
  | 2 => "Very Dangerous (Leaves on 2+)"
  | 3 => "Fairly Dangerous (Leaves on 3+)"
  | 4 => "Slightly Dangerous (Leaves on 4+)"
  | _ => "Unknown"

/-- `NarratorApp` state relevant to the test/draw flow: slider and
spinbox values, the hex grid view, the labels, the results text and the
button enablement.  The player roster and all widget layout are
excluded UI state. -/
structure NarratorApp where
  difficulty_slider : Nat
  danger_slider : Nat
  traits_for_test_spinbox : Nat
  draw_count_spinbox : Nat
  hex_grid_view : HexGridDrawView
  difficulty_label : String
  danger_label : String
  results_display : String
  begin_draw_enabled : Bool
  reset_enabled : Bool
deriving Repr, DecidableEq

/-- `NarratorApp.update_grid_setup`: refreshes both labels (only the
danger label reads the danger slider), rebuilds the grid from
`(traits_for_test, difficulty)` — danger is not passed to
`setup_grid` — resets the results text and the two buttons.  `σ` is the
`random.shuffle` oracle. -/
def NarratorApp.update_grid_setup (a : NarratorApp) (σ : List Nat → List Nat) :
    NarratorApp :=
  { a with
    difficulty_label := "Difficulty: " ++ toString a.difficulty_slider,
    danger_label := "Danger: " ++ toString a.danger_slider ++ " (" ++
      danger_text a.danger_slider ++ ")",
    hex_grid_view := a.hex_grid_view.setup_grid
      (σ (tile_types_base a.traits_for_test_spinbox a.difficulty_slider)),
    results_display :=
      "Grid is ready. Set number of tiles to reveal and begin draw.",
    reset_enabled := false,
    begin_draw_enabled := true }

/-- `NarratorApp.display_final_results` (HTML markup reduced to plain
text): shows the tally and, when the danger level is positive and the
complications drawn reach it, appends the leaves-the-scene narration.
The four sequential `if` statements of the source are kept as written. -/
def NarratorApp.display_final_results (a : NarratorApp)
    (successes complications : Nat) : NarratorApp :=
  let result_text := "Draw Complete: Successes: " ++ toString successes ++
    " Complications: " ++ toString complications
  let danger_level := a.danger_slider
  if 0 < danger_level then
    let ls1 := if danger_level = 1 ∧ 1 ≤ complications then true else false
    let ls2 := if danger_level = 2 ∧ 2 ≤ complications then true else ls1
    let ls3 := if danger_level = 3 ∧ 3 ≤ complications then true else ls2
    let leaves_scene := if danger_level = 4 ∧ 4 ≤ complications then true else ls3
    if leaves_scene then
      { a with results_display :=
          result_text ++ " The hero leaves the scene!" }
    else
      { a with results_display := result_text }
  else
    { a with results_display := result_text }

/-- The narrator-side counted-draw pipeline: rebuild the grid
(`update_grid_setup`), begin a draw with the spinbox quota, process the
player clicks. -/
def NarratorApp.runDraw (a : NarratorApp) (σ : List Nat → List Nat)
    (clicks : List Nat) : Except String HexGridDrawView :=
  let a1 := a.update_grid_setup σ
  match Tool.begin_interactive_draw a1.hex_grid_view a.draw_count_spinbox with
  | Except.error e => Except.error e
  | Except.ok g => Except.ok (Tool.runClicks g clicks)

end Tool

/-- C9: the danger value is mechanically inert.  Two runs identical
except for the danger slider build identical grids and produce
identical counted-draw outcomes (same acceptance or rejection, same
reveals, same completion events and tallies); `display_final_results`
reads danger only to choose the narrative text and changes nothing but
`results_display`. -/
theorem C9_danger_no_mechanical_effect (a : Tool.NarratorApp)
    (d1 d2 : Nat) (σ : List Nat → List Nat) (clicks : List Nat)
    (s c : Nat) :
    (({ a with danger_slider := d1 }.update_grid_setup σ).hex_grid_view =
      ({ a with danger_slider := d2 }.update_grid_setup σ).hex_grid_view) ∧
    ({ a with danger_slider := d1 }.runDraw σ clicks =
      { a with danger_slider := d2 }.runDraw σ clicks) ∧
    (∀ b : Tool.NarratorApp,
      (b.display_final_results s c).hex_grid_view = b.hex_grid_view ∧
      (b.display_final_results s c).danger_slider = b.danger_slider ∧
      (b.display_final_results s c).difficulty_slider = b.difficulty_slider ∧
      (b.display_final_results s c).traits_for_test_spinbox =
        b.traits_for_test_spinbox ∧
      (b.display_final_results s c).draw_count_spinbox =
        b.draw_count_spinbox ∧
      (b.display_final_results s c).begin_draw_enabled =
        b.begin_draw_enabled ∧
      (b.display_final_results s c).reset_enabled = b.reset_enabled) := by
  refine ⟨rfl, rfl, ?_⟩
  intro b
  unfold Tool.NarratorApp.display_final_results
  dsimp only
  refine ⟨?_, ?_, ?_, ?_, ?_, ?_, ?_⟩ <;> (repeat' split) <;> rfl

namespace HeroModel

/-- One trait slot of the hexagon hive: `{"text": ..., "tokens": ...}`. -/
structure TraitEntry where
  text : String
  tokens : Int
deriving Repr, DecidableEq

/-- A Python value as stored in a `Hero` attribute slot or a JSON-like
dict.  Python attributes are dynamically typed, so every `Hero` field
below holds a `PyValue`. -/
inductive PyValue where
  | pstr (s : String)
  | pint (n : Int)
  | pstrList (l : List String)
  | ptraitMap (m : List (String × TraitEntry))
  | pintMap (m : List (String × Int))
deriving Repr, DecidableEq

/-- `Hero` of src/hero_model.py: the ten attributes set in `__init__`,
each an untyped slot. -/
structure Hero where
  name : PyValue
  concept : PyValue
  last_updated : PyValue
  traits : PyValue
  resources : PyValue
  scars : PyValue
  lessons : PyValue
  misfortunes : PyValue
  adrenaline : PyValue
  confusion : PyValue
deriving Repr, DecidableEq

/-- The 19 trait slots initialised in `Hero.__init__`: the archetype,
`q1`–`q6` and `a1`–`a12`, each with empty text and zero tokens. -/
def defaultTraits : List (String × TraitEntry) :=
  [("archetype", ⟨"", 0⟩),
   ("q1", ⟨"", 0⟩), ("q2", ⟨"", 0⟩), ("q3", ⟨"", 0⟩),
   ("q4", ⟨"", 0⟩), ("q5", ⟨"", 0⟩), ("q6", ⟨"", 0⟩),
   ("a1", ⟨"", 0⟩), ("a2", ⟨"", 0⟩), ("a3", ⟨"", 0⟩), ("a4", ⟨"", 0⟩),
   ("a5", ⟨"", 0⟩), ("a6", ⟨"", 0⟩), ("a7", ⟨"", 0⟩), ("a8", ⟨"", 0⟩),
   ("a9", ⟨"", 0⟩), ("a10", ⟨"", 0⟩), ("a11", ⟨"", 0⟩), ("a12", ⟨"", 0⟩)]

/-- `Hero.__init__`; `now` is `datetime.utcnow().isoformat()` at
construction time. -/
def Hero.new (now : String) : Hero :=
  { name := PyValue.pstr "New Hero", concept := PyValue.pstr "",
    last_updated := PyValue.pstr now,
    traits := PyValue.ptraitMap defaultTraits,
    resources := PyValue.pstrList [], scars := PyValue.ptraitMap [],
    lessons := PyValue.pstrList [], misfortunes := PyValue.pintMap [],
    adrenaline := PyValue.pint 0, confusion := PyValue.pint 0 }

/-- `Hero.to_dict`: refreshes `last_updated` to the serialization time
`now` (a mutation of the hero itself — the first component) and returns
`self.__dict__`, i.e. every attribute keyed by name. -/
def Hero.to_dict (h : Hero) (now : String) : Hero × List (String × PyValue) :=
  let h1 := { h with last_updated := PyValue.pstr now }
  (h1, [("name", h1.name), ("concept", h1.concept),
        ("last_updated", h1.last_updated), ("traits", h1.traits),
        ("resources", h1.resources), ("scars", h1.scars),
        ("lessons", h1.lessons), ("misfortunes", h1.misfortunes),
        ("adrenaline", h1.adrenaline), ("confusion", h1.confusion)])

/-- The data attributes set in `Hero.__init__`, in order. -/
def heroFieldNames : List String :=
  ["name", "concept", "last_updated", "traits", "resources", "scars",
   "lessons", "misfortunes", "adrenaline", "confusion"]

/-- `setattr(hero, key, value)` as guarded by `hasattr` in `from_dict`.
A key naming one of the class's methods (`to_dict`, `from_dict`,
`save_to_file`, `load_from_file`) would pass `hasattr` and shadow the
method on the instance, but touches no data field, so on this
data-field model it is likewise a no-op. -/
def Hero.setattr (h : Hero) (key : String) (v : PyValue) : Hero :=
  if key = "name" then { h with name := v }
  else if key = "concept" then { h with concept := v }
  else if key = "last_updated" then { h with last_updated := v }
  else if key = "traits" then { h with traits := v }
  else if key = "resources" then { h with resources := v }
  else if key = "scars" then { h with scars := v }
  else if key = "lessons" then { h with lessons := v }
  else if key = "misfortunes" then { h with misfortunes := v }
  else if key = "adrenaline" then { h with adrenaline := v }
  else if key = "confusion" then { h with confusion := v }
  else h

/-- `Hero.from_dict`: a fresh hero (constructed at time `now`), then
each input entry is applied through the `hasattr`-guarded `setattr`. -/
def Hero.from_dict (now : String) (data : List (String × PyValue)) : Hero :=
  data.foldl (fun h kv => h.setattr kv.1 kv.2) (Hero.new now)

/-- `getattr(hero, key)` restricted to the data attributes: the observer
used to state per-attribute facts (`none` for non-attributes). -/
def Hero.getattr (h : Hero) (key : String) : Option PyValue :=
  if key = "name" then some h.name
  else if key = "concept" then some h.concept
  else if key = "last_updated" then some h.last_updated
  else if key = "traits" then some h.traits
  else if key = "resources" then some h.resources
  else if key = "scars" then some h.scars
  else if key = "lessons" then some h.lessons
  else if key = "misfortunes" then some h.misfortunes
  else if key = "adrenaline" then some h.adrenaline
  else if key = "confusion" then some h.confusion
  else none

end HeroModel

lemma hero_setattr_unknown (h : HeroModel.Hero) (key : String)
    (v : HeroModel.PyValue) (hkey : key ∉ HeroModel.heroFieldNames) :
    h.setattr key v = h := by
  simp only [HeroModel.heroFieldNames, List.mem_cons, List.not_mem_nil,
    or_false, not_or] at hkey
  obtain ⟨h1, h2, h3, h4, h5, h6, h7, h8, h9, h10⟩ := hkey
  unfold HeroModel.Hero.setattr
  rw [if_neg h1, if_neg h2, if_neg h3, if_neg h4, if_neg h5, if_neg h6,
    if_neg h7, if_neg h8, if_neg h9, if_neg h10]

set_option maxHeartbeats 2000000 in
lemma hero_getattr_setattr_ne (h : HeroModel.Hero) (k key : String)
    (v : HeroModel.PyValue) (hne : k ≠ key) :
    (h.setattr k v).getattr key = h.getattr key := by
  unfold HeroModel.Hero.setattr
  split_ifs with h1 h2 h3 h4 h5 h6 h7 h8 h9 h10
  · subst h1
    unfold HeroModel.Hero.getattr
    simp only [if_neg (show ¬ key = "name" from fun hk => hne hk.symm)]
  · subst h2
    unfold HeroModel.Hero.getattr
    simp only [if_neg (show ¬ key = "concept" from fun hk => hne hk.symm)]
  · subst h3
    unfold HeroModel.Hero.getattr
    simp only [if_neg
      (show ¬ key = "last_updated" from fun hk => hne hk.symm)]
  · subst h4
    unfold HeroModel.Hero.getattr
    simp only [if_neg (show ¬ key = "traits" from fun hk => hne hk.symm)]
  · subst h5
    unfold HeroModel.Hero.getattr
    simp only [if_neg (show ¬ key = "resources" from fun hk => hne hk.symm)]
  · subst h6
    unfold HeroModel.Hero.getattr
    simp only [if_neg (show ¬ key = "scars" from fun hk => hne hk.symm)]
  · subst h7
    unfold HeroModel.Hero.getattr
    simp only [if_neg (show ¬ key = "lessons" from fun hk => hne hk.symm)]
  · subst h8
    unfold HeroModel.Hero.getattr
    simp only [if_neg
      (show ¬ key = "misfortunes" from fun hk => hne hk.symm)]
  · subst h9
    unfold HeroModel.Hero.getattr
    simp only [if_neg (show ¬ key = "adrenaline" from fun hk => hne hk.symm)]
  · subst h10
    unfold HeroModel.Hero.getattr
    simp only [if_neg (show ¬ key = "confusion" from fun hk => hne hk.symm)]
  · rfl

lemma hero_from_dict_absent (key : String) :
    ∀ (data : List (String × HeroModel.PyValue)) (h : HeroModel.Hero),
      (∀ kv ∈ data, kv.1 ≠ key) →
      (data.foldl (fun h kv => h.setattr kv.1 kv.2) h).getattr key =
        h.getattr key := by
  intro data
  induction data with
  | nil => intro h _; rfl
  | cons kv rest ih =>
    intro h hab
    rw [List.foldl_cons,
      ih _ (fun kv2 hm => hab kv2 (List.mem_cons_of_mem _ hm)),
      hero_getattr_setattr_ne h kv.1 key kv.2 (hab kv (List.mem_cons_self _ _))]

/-- C10: `from_dict (to_dict h)` restores every field, with
`last_updated` holding the serialization time that `to_dict` wrote
(`to_dict` also mutates the hero itself that way); input keys that are
not `Hero` attributes are silently skipped; and every attribute absent
from the input — whether the input is empty or not — keeps its
constructor default. -/
theorem C10_hero_roundtrip (h : HeroModel.Hero) (t1 t2 : String)
    (data : List (String × HeroModel.PyValue)) (key : String)
    (v : HeroModel.PyValue) (hkey : key ∉ HeroModel.heroFieldNames) :
    HeroModel.Hero.from_dict t2 (HeroModel.Hero.to_dict h t1).2 =
      { h with last_updated := HeroModel.PyValue.pstr t1 } ∧
    (HeroModel.Hero.to_dict h t1).1 =
      { h with last_updated := HeroModel.PyValue.pstr t1 } ∧
    HeroModel.Hero.from_dict t2 (data ++ [(key, v)]) =
      HeroModel.Hero.from_dict t2 data ∧
    (∀ (key2 : String) (data2 : List (String × HeroModel.PyValue)),
      (∀ kv ∈ data2, kv.1 ≠ key2) →
      (HeroModel.Hero.from_dict t2 data2).getattr key2 =
        (HeroModel.Hero.new t2).getattr key2) ∧
    HeroModel.Hero.from_dict t2 [] = HeroModel.Hero.new t2 := by
  refine ⟨?_, rfl, ?_, ?_, rfl⟩
  · rfl
  · unfold HeroModel.Hero.from_dict
    rw [List.foldl_append]
    exact hero_setattr_unknown _ key v hkey
  · intro key2 data2 hab
    exact hero_from_dict_absent key2 data2 (HeroModel.Hero.new t2) hab

/-- C10 (witness): instantiates `C10_hero_roundtrip` on a fresh hero
with a renamed field in the input and an unknown key `"bogus"`. -/
theorem C10_hero_roundtrip_witness :
    ("bogus" ∉ HeroModel.heroFieldNames) ∧
    (HeroModel.Hero.from_dict "t2"
        (HeroModel.Hero.to_dict (HeroModel.Hero.new "t0") "t1").2 =
      { HeroModel.Hero.new "t0" with
          last_updated := HeroModel.PyValue.pstr "t1" } ∧
    (HeroModel.Hero.to_dict (HeroModel.Hero.new "t0") "t1").1 =
      { HeroModel.Hero.new "t0" with
          last_updated := HeroModel.PyValue.pstr "t1" } ∧
    HeroModel.Hero.from_dict "t2"
        ([("name", HeroModel.PyValue.pstr "X")] ++
          [("bogus", HeroModel.PyValue.pint 7)]) =
      HeroModel.Hero.from_dict "t2" [("name", HeroModel.PyValue.pstr "X")] ∧
    (∀ (key2 : String) (data2 : List (String × HeroModel.PyValue)),
      (∀ kv ∈ data2, kv.1 ≠ key2) →
      (HeroModel.Hero.from_dict "t2" data2).getattr key2 =
        (HeroModel.Hero.new "t2").getattr key2) ∧
    HeroModel.Hero.from_dict "t2" [] = HeroModel.Hero.new "t2") :=
  ⟨by decide,
    C10_hero_roundtrip (HeroModel.Hero.new "t0") "t1" "t2"
      [("name", HeroModel.PyValue.pstr "X")] "bogus"
      (HeroModel.PyValue.pint 7) (by decide)⟩
